import Mathlib

/-!
Verification development for the `tesoreria-bi` repository.

The repository is a two-script batch pipeline:
  * `src/data/generar_datos_1.py` — generates a synthetic table of treasury
    movements plus a product lookup table;
  * `src/python/reporte_tesoreria_1.py` — loads and joins the two tables
    (`cargar_datos`), cleans and validates them (`limpiar_datos`), computes
    five aggregate views (`calcular_kpis`) and exports a six-sheet
    spreadsheet (`exportar_excel`).

This file gives a shallow embedding of both scripts.  Tables are lists of
records; text cells are lists of Unicode code points (`Str := List Nat`), so
that the `str.lower/str.upper/str.strip` normalisation used by
`limpiar_datos` becomes arithmetic on code points; nullable columns are
`Option`s.  Monetary amounts are integers: the source's amounts are decimal
numbers with a fixed number of places, which scale exactly to integer units,
and every claim concerns sums, signs and orderings, which the scaling
preserves.  The presentation-only columns derived with `.mean()` and
`.round(2)` (`monto_promedio`) and the constant `estado` text are not
carried by the embedding; no claim mentions them.  A pandas cell of the
`monto` column is `Option (Option ℤ)`: the outer `none` is a missing value
(NaN), `some none` is a non-numeric text cell (which
`pd.to_numeric(errors="coerce")` turns into NaN), and `some (some q)` is a
cell that holds, or parses to, the number `q`.

pandas semantics that the embedding commits to:
  * `drop_duplicates(subset)` keeps the first occurrence, in input order;
  * `dropna(subset)` keeps exactly the rows whose listed cells are non-null;
  * `groupby(keys)` (default `sort=True`, `dropna=True`) drops every row
    whose key contains a null, and lists the groups in ascending key order,
    each group keeping the input order of its rows;
  * `sort_values` is modelled by a stable insertion sort;
  * `cumsum` within `groupby("moneda")` gives, at each row, the sum of the
    column over all rows up to and including it that share its `moneda`.
-/

set_option maxHeartbeats 1000000
set_option maxRecDepth 8000

namespace Tesoreria

/-- Text cells as lists of Unicode code points. -/
abbrev Str := List Nat

/-- Code-point model of Python `str.lower` on one character:
ASCII `A`–`Z` (65–90) maps to `a`–`z` (97–122), anything else is fixed. -/
def lowerChar (n : Nat) : Nat := if 65 ≤ n ∧ n ≤ 90 then n + 32 else n

/-- Code-point model of Python `str.upper` on one character:
ASCII `a`–`z` (97–122) maps to `A`–`Z` (65–90), anything else is fixed. -/
def upperChar (n : Nat) : Nat := if 97 ≤ n ∧ n ≤ 122 then n - 32 else n

/-- Whitespace code points stripped by Python `str.strip`
(space, tab, LF, VT, FF, CR). -/
def esEspacio (n : Nat) : Bool :=
  n = 32 || n = 9 || n = 10 || n = 11 || n = 12 || n = 13

/-- Python `str.strip`: remove leading and trailing whitespace. -/
def strip (s : Str) : Str :=
  ((s.dropWhile esEspacio).reverse.dropWhile esEspacio).reverse

/-- Model of `str.lower().strip()`, as applied to `tipo_operacion` in `limpiar_datos`. -/
def normLower (s : Str) : Str := strip (s.map lowerChar)

/-- Model of `str.upper().strip()`, as applied to `moneda` in `limpiar_datos`. -/
def normUpper (s : Str) : Str := strip (s.map upperChar)

/-- The string `"ingreso"` as code points. -/
def strIngreso : Str := [105, 110, 103, 114, 101, 115, 111]

/-- The string `"egreso"` as code points. -/
def strEgreso : Str := [101, 103, 114, 101, 115, 111]

/-- The string `"PEN"` as code points. -/
def strPEN : Str := [80, 69, 78]

/-- The string `"USD"` as code points. -/
def strUSD : Str := [85, 83, 68]

lemma lowerChar_idem (n : Nat) : lowerChar (lowerChar n) = lowerChar n := by
  unfold lowerChar
  split <;> rename_i h
  · rw [if_neg (by omega)]
  · rfl

lemma upperChar_idem (n : Nat) : upperChar (upperChar n) = upperChar n := by
  unfold upperChar
  split <;> rename_i h
  · rw [if_neg (by omega)]
  · rfl

lemma esEspacio_eq_false_of_ge (n : Nat) (h : 33 ≤ n) : esEspacio n = false := by
  unfold esEspacio
  simp only [Bool.or_eq_false_iff, decide_eq_false_iff_not]
  omega

lemma esEspacio_lowerChar (n : Nat) : esEspacio (lowerChar n) = esEspacio n := by
  unfold lowerChar
  split <;> rename_i h
  · rw [esEspacio_eq_false_of_ge (n + 32) (by omega),
      esEspacio_eq_false_of_ge n (by omega)]
  · rfl

lemma esEspacio_upperChar (n : Nat) : esEspacio (upperChar n) = esEspacio n := by
  unfold upperChar
  split <;> rename_i h
  · rw [esEspacio_eq_false_of_ge (n - 32) (by omega),
      esEspacio_eq_false_of_ge n (by omega)]
  · rfl

lemma dropWhile_dropWhile (p : α → Bool) (l : List α) :
    (l.dropWhile p).dropWhile p = l.dropWhile p := by
  induction l with
  | nil => rfl
  | cons a l ih =>
    by_cases h : p a = true
    · simpa [List.dropWhile_cons, h] using ih
    · simp [List.dropWhile_cons, h]

lemma dropWhile_head_false (p : α → Bool) (l : List α) (a : α) (t : List α)
    (h : l.dropWhile p = a :: t) : p a = false := by
  induction l with
  | nil => simp at h
  | cons b l ih =>
    rw [List.dropWhile_cons] at h
    by_cases hb : p b = true
    · exact ih (by simpa [hb] using h)
    · rw [if_neg hb] at h
      cases h
      simpa using hb

lemma dropWhile_eq_self_of_head (p : α → Bool) (a : α) (t : List α)
    (ha : p a = false) : (a :: t).dropWhile p = a :: t := by
  simp [List.dropWhile_cons, ha]

lemma strip_strip (l : Str) : strip (strip l) = strip l := by
  unfold strip
  set u := l.dropWhile esEspacio with hu
  set w := u.reverse.dropWhile esEspacio with hw
  -- first, the reversed `w` needs no further left stripping
  have hpre : w.reverse <+: u := by
    have : w <:+ u.reverse := hw ▸ List.dropWhile_suffix _
    have := List.IsSuffix.reverse this
    simpa using this
  have h1 : w.reverse.dropWhile esEspacio = w.reverse := by
    cases hwr : w.reverse with
    | nil => rfl
    | cons a t =>
      obtain ⟨rest, hrest⟩ := hpre
      rw [hwr] at hrest
      have hufrm : u = a :: (t ++ rest) := by
        simpa using hrest.symm
      have ha : esEspacio a = false :=
        dropWhile_head_false esEspacio l a (t ++ rest) (by rw [← hu, hufrm])
      exact dropWhile_eq_self_of_head esEspacio a t ha
  rw [h1, List.reverse_reverse, dropWhile_dropWhile]

lemma dropWhile_ext (p q : α → Bool) (h : ∀ a, p a = q a) (l : List α) :
    l.dropWhile p = l.dropWhile q := by
  induction l with
  | nil => rfl
  | cons a l ih => rw [List.dropWhile_cons, List.dropWhile_cons, h a, ih]

lemma map_strip (f : Nat → Nat) (hw : ∀ n, esEspacio (f n) = esEspacio n)
    (l : Str) : (strip l).map f = strip (l.map f) := by
  unfold strip
  rw [List.dropWhile_map, dropWhile_ext (esEspacio ∘ f) esEspacio hw,
    ← List.map_reverse, List.dropWhile_map,
    dropWhile_ext (esEspacio ∘ f) esEspacio hw, ← List.map_reverse]

lemma normBy_idem (f : Nat → Nat) (hf : ∀ n, f (f n) = f n)
    (hw : ∀ n, esEspacio (f n) = esEspacio n) (s : Str) :
    strip ((strip (s.map f)).map f) = strip (s.map f) := by
  rw [map_strip f hw, strip_strip, List.map_map,
    show List.map (f ∘ f) s = List.map f s from
      List.map_congr_left (fun a _ => hf a)]

lemma normLower_idem (s : Str) : normLower (normLower s) = normLower s :=
  normBy_idem lowerChar lowerChar_idem esEspacio_lowerChar s

lemma normUpper_idem (s : Str) : normUpper (normUpper s) = normUpper s :=
  normBy_idem upperChar upperChar_idem esEspacio_upperChar s

/-- A calendar date, as parsed by `pd.to_datetime` / `parse_dates=["fecha"]`. -/
@[ext] structure Fecha where
  y : Int
  m : Int
  d : Int
deriving DecidableEq, Repr

/-- Model of `dt.to_period("M")`: the calendar-month bucket of a date. -/
def Fecha.mes (f : Fecha) : Int × Int := (f.y, f.m)

/-- Strict chronological (lexicographic) order on dates. -/
def Fecha.lt (a b : Fecha) : Prop :=
  a.y < b.y ∨ (a.y = b.y ∧ (a.m < b.m ∨ (a.m = b.m ∧ a.d < b.d)))

/-- Chronological order on dates. -/
def Fecha.le (a b : Fecha) : Prop := Fecha.lt a b ∨ a = b

instance (a b : Fecha) : Decidable (Fecha.lt a b) := by
  unfold Fecha.lt; infer_instance

instance (a b : Fecha) : Decidable (Fecha.le a b) := by
  unfold Fecha.le; infer_instance

lemma Fecha.lt_trans {a b c : Fecha} (h1 : Fecha.lt a b) (h2 : Fecha.lt b c) :
    Fecha.lt a c := by
  unfold Fecha.lt at *
  omega

lemma Fecha.lt_trichotomy (a b : Fecha) :
    Fecha.lt a b ∨ a = b ∨ Fecha.lt b a := by
  unfold Fecha.lt
  rw [Fecha.ext_iff]
  omega

/-- A row of the product lookup table (`productos.csv`). -/
structure Producto where
  producto_id : Int
  nombre_producto : Str
deriving DecidableEq, Repr

/-- A row of the movements table (`movimientos.csv`), before the join.
`monto` cells are `Option (Option ℤ)`: outer `none` = missing (NaN),
`some none` = non-numeric text, `some (some q)` = the number `q`. -/
structure Mov where
  id_movimiento : Int
  fecha : Option Fecha
  producto_id : Int
  tipo_operacion : Option Str
  monto : Option (Option ℤ)
  moneda : Option Str
  contraparte : Option Str
  descripcion : Option Str
deriving DecidableEq, Repr

/-- A row of the joined movements table, the frame passed between
`cargar_datos`, `limpiar_datos`, `calcular_kpis` and `exportar_excel`.
`nombre_producto` is null for an unmatched `producto_id`; `monto_neto` and
`mes` are the two derived columns, absent (`none`) until the pipeline adds
them. -/
structure Row where
  id_movimiento : Int
  fecha : Option Fecha
  producto_id : Int
  tipo_operacion : Option Str
  monto : Option (Option ℤ)
  moneda : Option Str
  contraparte : Option Str
  descripcion : Option Str
  nombre_producto : Option Str
  monto_neto : Option ℤ
  mes : Option (Int × Int)
deriving DecidableEq, Repr

/-- Loading step `cargar_datos`: read the two tables and left-join them on `producto_id`
(`df.merge(productos, on="producto_id", how="left")`).  The product table the
generator writes has unique ids, so the join is a first-match lookup; an
unmatched id keeps the movement with a null `nombre_producto`. -/
def cargar_datos (movs : List Mov) (productos : List Producto) : List Row :=
  movs.map (fun mv =>
    { id_movimiento := mv.id_movimiento
      fecha := mv.fecha
      producto_id := mv.producto_id
      tipo_operacion := mv.tipo_operacion
      monto := mv.monto
      moneda := mv.moneda
      contraparte := mv.contraparte
      descripcion := mv.descripcion
      nombre_producto :=
        (productos.find? (fun p => p.producto_id == mv.producto_id)).map
          (fun p => p.nombre_producto)
      monto_neto := none
      mes := none })

/-- Model of `df.drop_duplicates(subset="id_movimiento")`: keep, in input
order, each
row whose id has not been seen before. -/
def drop_duplicates_desde (vistos : List Int) : List Row → List Row
  | [] => []
  | r :: rs =>
    if r.id_movimiento ∈ vistos then drop_duplicates_desde vistos rs
    else r :: drop_duplicates_desde (r.id_movimiento :: vistos) rs

/-- Model of `df.drop_duplicates(subset="id_movimiento")`: keep the first
row bearing
each id, in input order. -/
def drop_duplicates (df : List Row) : List Row := drop_duplicates_desde [] df

/-- The `df.dropna(subset=["fecha", "monto", "tipo_operacion", "moneda"])`
row test. -/
def noNulos (r : Row) : Bool :=
  r.fecha.isSome && r.monto.isSome && r.tipo_operacion.isSome &&
    r.moneda.isSome

/-- Model of `pd.to_numeric(df["monto"], errors="coerce")` on one cell: a
numeric cell
is kept, a non-numeric text cell becomes NaN, NaN stays NaN.
(`pd.to_datetime(df["fecha"])` on an already-parsed date column is the
identity and is not modelled separately.) -/
def to_numeric : Option (Option ℤ) → Option (Option ℤ)
  | some (some q) => some (some q)
  | _ => none

/-- Numeric value of a `monto` cell; cleaned rows always match
`some (some q)`, so the default is never read downstream. -/
def cellVal (c : Option (Option ℤ)) : ℤ := (c.getD none).getD 0

/-- The text-standardisation step of `limpiar_datos`:
`tipo_operacion ← str.lower().str.strip()`, `moneda ← str.upper().str.strip()`
(null cells stay null, as with pandas `.str` accessors). -/
def normalizar (r : Row) : Row :=
  { r with
    tipo_operacion := r.tipo_operacion.map normLower
    moneda := r.moneda.map normUpper }

/-- The derived signed-amount column:
`monto_neto = monto if tipo_operacion == "ingreso" else -monto`. -/
def conMontoNeto (r : Row) : Row :=
  { r with
    monto_neto := (r.monto.getD none).map
      (fun q => if r.tipo_operacion = some strIngreso then q else -q) }

/-- The table produced by `limpiar_datos`, stage by stage in source order:
drop duplicate ids (first kept), drop rows with null critical cells, coerce
`monto` to numeric, drop rows whose coercion failed, normalise
`tipo_operacion`/`moneda`, add the `monto_neto` column. -/
def limpiar_tabla (df : List Row) : List Row :=
  (((((drop_duplicates df).filter noNulos).map
    (fun r => { r with monto := to_numeric r.monto })).filter
    (fun r => r.monto.isSome)).map normalizar).map conMontoNeto

/-- Cleaning step `limpiar_datos`: the cleaned table together with the reported
removed-row count (`eliminados = registros_antes - registros_despues`).
The caller's table is not mutated: every pandas step used returns a new
frame, so the embedding is a pure function of the input. -/
def limpiar_datos (df : List Row) : List Row × Nat :=
  (limpiar_tabla df, df.length - (limpiar_tabla df).length)

lemma drop_duplicates_desde_length_le :
    ∀ (l : List Row) (v : List Int),
      (drop_duplicates_desde v l).length ≤ l.length := by
  intro l
  induction l with
  | nil => intro v; simp [drop_duplicates_desde]
  | cons r rs ih =>
    intro v
    simp only [drop_duplicates_desde]
    split
    · exact le_trans (ih v) (Nat.le_succ _)
    · simpa [List.length_cons] using ih (r.id_movimiento :: v)

lemma drop_duplicates_desde_subset :
    ∀ (l : List Row) (v : List Int), drop_duplicates_desde v l ⊆ l := by
  intro l
  induction l with
  | nil => intro v; simp [drop_duplicates_desde]
  | cons r rs ih =>
    intro v
    simp only [drop_duplicates_desde]
    split
    · exact fun t ht => List.mem_cons_of_mem _ (ih v ht)
    · intro t ht
      rcases List.mem_cons.1 ht with h | h
      · exact h ▸ List.mem_cons_self _ _
      · exact List.mem_cons_of_mem _ (ih _ h)

lemma drop_duplicates_desde_ids :
    ∀ (l : List Row) (v : List Int),
      ((drop_duplicates_desde v l).map (fun r => r.id_movimiento)).Nodup ∧
        ∀ i ∈ (drop_duplicates_desde v l).map (fun r => r.id_movimiento),
          i ∉ v := by
  intro l
  induction l with
  | nil => intro v; simp [drop_duplicates_desde]
  | cons r rs ih =>
    intro v
    simp only [drop_duplicates_desde]
    split <;> rename_i hv
    · exact ih v
    · simp only [List.map_cons, List.nodup_cons]
      obtain ⟨ihn, ihm⟩ := ih (r.id_movimiento :: v)
      refine ⟨⟨?_, ihn⟩, ?_⟩
      · intro hmem
        exact (ihm _ hmem) (List.mem_cons_self _ _)
      · intro i hi
        rcases List.mem_cons.1 hi with h | h
        · exact h ▸ hv
        · intro hiv
          exact (ihm i h) (List.mem_cons_of_mem _ hiv)

lemma drop_duplicates_desde_eq_self :
    ∀ (l : List Row) (v : List Int),
      (l.map (fun r => r.id_movimiento)).Nodup →
      (∀ i ∈ l.map (fun r => r.id_movimiento), i ∉ v) →
      drop_duplicates_desde v l = l := by
  intro l
  induction l with
  | nil => intro v _ _; rfl
  | cons r rs ih =>
    intro v hnd hdisj
    simp only [List.map_cons, List.nodup_cons] at hnd
    simp only [drop_duplicates_desde]
    rw [if_neg (hdisj r.id_movimiento (by simp))]
    congr 1
    apply ih (r.id_movimiento :: v) hnd.2
    intro i hi hmem
    rcases List.mem_cons.1 hmem with h | h
    · exact hnd.1 (h ▸ hi)
    · exact hdisj i (List.mem_cons_of_mem _ hi) h

lemma drop_duplicates_length_le (l : List Row) :
    (drop_duplicates l).length ≤ l.length :=
  drop_duplicates_desde_length_le l []

lemma drop_duplicates_subset (l : List Row) : drop_duplicates l ⊆ l :=
  drop_duplicates_desde_subset l []

lemma drop_duplicates_ids_nodup (l : List Row) :
    ((drop_duplicates l).map (fun r => r.id_movimiento)).Nodup :=
  (drop_duplicates_desde_ids l []).1

lemma drop_duplicates_eq_self (l : List Row)
    (h : (l.map (fun r => r.id_movimiento)).Nodup) : drop_duplicates l = l :=
  drop_duplicates_desde_eq_self l [] h (by simp)

lemma to_numeric_isSome {c : Option (Option ℤ)}
    (h : (to_numeric c).isSome = true) : ∃ q, c = some (some q) := by
  match c with
  | some (some q) => exact ⟨q, rfl⟩
  | some none => simp [to_numeric] at h
  | none => simp [to_numeric] at h

/-- Shape of every cleaned row: critical cells are non-null, `monto` holds a
number, and the normalisation and derived-column steps are fixed points on
the row. -/
lemma mem_limpiar {df : List Row} {r : Row} (h : r ∈ (limpiar_datos df).1) :
    noNulos r = true ∧ (∃ q : ℤ, r.monto = some (some q)) ∧
      normalizar r = r ∧ conMontoNeto r = r := by
  unfold limpiar_datos limpiar_tabla at h
  simp only [List.mem_map, List.mem_filter] at h
  obtain ⟨r5, ⟨r4, ⟨⟨r1, ⟨hr1mem, hr1nn⟩, hr4eq⟩, hr4some⟩, hr5eq⟩, hreq⟩ := h
  subst hr4eq hr5eq hreq
  obtain ⟨q, hq⟩ := to_numeric_isSome hr4some
  simp only [noNulos, Bool.and_eq_true, Option.isSome_iff_exists] at hr1nn
  obtain ⟨⟨⟨⟨f, hf⟩, -⟩, s, hs⟩, c, hc⟩ := hr1nn
  refine ⟨?_, ⟨q, ?_⟩, ?_, ?_⟩ <;>
    simp [noNulos, conMontoNeto, normalizar, hf, hs, hc, hq, to_numeric,
      normLower_idem, normUpper_idem]

/-- The cleaned table has pairwise-distinct `id_movimiento` values. -/
lemma limpiar_ids_nodup (df : List Row) :
    ((limpiar_datos df).1.map (fun r => r.id_movimiento)).Nodup := by
  show ((limpiar_tabla df).map (fun r => r.id_movimiento)).Nodup
  unfold limpiar_tabla
  rw [List.map_map, List.map_map]
  have hids : ∀ l : List Row,
      l.map (((fun r => r.id_movimiento) ∘ conMontoNeto) ∘ normalizar) =
        l.map (fun r => r.id_movimiento) :=
    fun l => List.map_congr_left (fun a _ => rfl)
  rw [hids]
  have h1 : List.Sublist
      ((((drop_duplicates df).filter noNulos).map
        (fun r => { r with monto := to_numeric r.monto })).filter
        (fun r => r.monto.isSome))
      (((drop_duplicates df).filter noNulos).map
        (fun r => { r with monto := to_numeric r.monto })) :=
    List.filter_sublist _
  apply List.Nodup.sublist (h1.map (fun r => r.id_movimiento))
  rw [List.map_map]
  have h3 : ((drop_duplicates df).filter noNulos).map
      ((fun r => r.id_movimiento) ∘
        (fun r => { r with monto := to_numeric r.monto })) =
      ((drop_duplicates df).filter noNulos).map (fun r => r.id_movimiento) :=
    List.map_congr_left (fun a _ => rfl)
  rw [h3]
  exact ((List.filter_sublist _).map _).nodup (drop_duplicates_ids_nodup df)

/-- C7.  The cleaning step is a pure function returning a new validated
table — the caller's input table is not modified (the embedding of
`limpiar_datos` maps the input list to a fresh list) — and the reported
removed-row count equals the number of input rows minus the number of
output rows (which never exceeds the input count). -/
theorem limpiar_nueva_tabla_y_conteo (df : List Row) :
    (limpiar_datos df).2 = df.length - (limpiar_datos df).1.length ∧
      (limpiar_datos df).1.length ≤ df.length := by
  refine ⟨rfl, ?_⟩
  show (limpiar_tabla df).length ≤ df.length
  unfold limpiar_tabla
  simp only [List.length_map]
  have h1 := drop_duplicates_length_le df
  have h2 := List.length_filter_le noNulos (drop_duplicates df)
  have h3 := List.length_filter_le (fun r => r.monto.isSome)
    (((drop_duplicates df).filter noNulos).map
      (fun r => { r with monto := to_numeric r.monto }))
  simp only [List.length_map] at h3
  omega

/-- C8.  Cleaning is idempotent: re-running `limpiar_datos` on a cleaned
table removes zero rows and returns the very same table (same rows, same
normalised text, same derived `monto_neto`). -/
theorem limpiar_idempotente (df : List Row) :
    limpiar_datos (limpiar_datos df).1 = ((limpiar_datos df).1, 0) := by
  have hnd := limpiar_ids_nodup df
  have h1 : drop_duplicates (limpiar_datos df).1 = (limpiar_datos df).1 :=
    drop_duplicates_eq_self _ hnd
  have h2 : (limpiar_datos df).1.filter noNulos = (limpiar_datos df).1 :=
    List.filter_eq_self.mpr (fun r hr => (mem_limpiar hr).1)
  have h3 : (limpiar_datos df).1.map
      (fun r => { r with monto := to_numeric r.monto }) =
      (limpiar_datos df).1 := by
    have := List.map_congr_left (l := (limpiar_datos df).1)
      (f := fun r => { r with monto := to_numeric r.monto }) (g := id)
      (fun r hr => by
        obtain ⟨q, hq⟩ := (mem_limpiar hr).2.1
        show ({ r with monto := to_numeric r.monto } : Row) = r
        rw [hq]
        show ({ r with monto := some (some q) } : Row) = r
        rw [← hq])
    rw [this, List.map_id]
  have h4 : (limpiar_datos df).1.filter (fun r => r.monto.isSome) =
      (limpiar_datos df).1 :=
    List.filter_eq_self.mpr (fun r hr => by
      obtain ⟨q, hq⟩ := (mem_limpiar hr).2.1
      rw [hq]
      rfl)
  have h5 : (limpiar_datos df).1.map normalizar = (limpiar_datos df).1 := by
    have := List.map_congr_left (l := (limpiar_datos df).1)
      (f := normalizar) (g := id) (fun r hr => (mem_limpiar hr).2.2.1)
    rw [this, List.map_id]
  have h6 : (limpiar_datos df).1.map conMontoNeto = (limpiar_datos df).1 := by
    have := List.map_congr_left (l := (limpiar_datos df).1)
      (f := conMontoNeto) (g := id) (fun r hr => (mem_limpiar hr).2.2.2)
    rw [this, List.map_id]
  show (limpiar_tabla (limpiar_datos df).1,
      (limpiar_datos df).1.length - (limpiar_tabla (limpiar_datos df).1).length)
    = ((limpiar_datos df).1, 0)
  unfold limpiar_tabla
  rw [show drop_duplicates (limpiar_datos df).1 = (limpiar_datos df).1 from h1,
    h2, h3, h4, h5, h6, Nat.sub_self]

/-- Row test `tipo_operacion == "ingreso"`, as used by every
`total_ingresos` aggregation in `calcular_kpis`. -/
def esIngreso (r : Row) : Bool := decide (r.tipo_operacion = some strIngreso)

/-- Row test `tipo_operacion == "egreso"`, as used by every `total_egresos`
aggregation in `calcular_kpis`. -/
def esEgreso (r : Row) : Bool := decide (r.tipo_operacion = some strEgreso)

/-- Numeric amount of a row (its coerced `monto` cell). -/
def montoDe (r : Row) : ℤ := cellVal r.monto

/-- Signed amount of a row (its `monto_neto` cell). -/
def netoDe (r : Row) : ℤ := r.monto_neto.getD 0

/-- Global income total of a table for one currency: the sum of `monto`
over the rows with `tipo_operacion == "ingreso"` and that `moneda`. -/
def ingresosTotales (c : Str) (df : List Row) : ℤ :=
  ((df.filter (fun r => esIngreso r && decide (r.moneda = some c))).map
    montoDe).sum

/-- Global expense total of a table for one currency. -/
def egresosTotales (c : Str) (df : List Row) : ℤ :=
  ((df.filter (fun r => esEgreso r && decide (r.moneda = some c))).map
    montoDe).sum

/-- Global signed net total of a table for one currency: the sum of
`monto_neto` over the rows with that `moneda`. -/
def netosTotales (c : Str) (df : List Row) : ℤ :=
  ((df.filter (fun r => decide (r.moneda = some c))).map netoDe).sum

/-- C3.  A row whose normalised `tipo_operacion` is neither `"ingreso"`
nor `"egreso"` but whose critical cells are valid is kept by cleaning (no
fatal error), its derived `monto_neto` is minus its amount (the
`else`-branch of the `monto_neto` lambda), and it contributes to neither
the global income total nor the global expense total of any currency —
removing it from the cleaned table changes neither total (every view's
income/expense totals are sums of these partitioned filters). -/
theorem tipo_desconocido_tolerado (df : List Row) (r : Row) (s : Str)
    (q : ℤ) (f : Fecha) (c : Str)
    (hr : r ∈ drop_duplicates df)
    (hf : r.fecha = some f) (hq : r.monto = some (some q))
    (hs : r.tipo_operacion = some s) (hc : r.moneda = some c)
    (hni : normLower s ≠ strIngreso) (hne : normLower s ≠ strEgreso) :
    ∃ r' ∈ (limpiar_datos df).1,
      r'.id_movimiento = r.id_movimiento ∧
      r'.tipo_operacion = some (normLower s) ∧
      r'.monto_neto = some (-q) ∧
      ∀ c' : Str,
        ingresosTotales c' (limpiar_datos df).1 =
          ingresosTotales c' ((limpiar_datos df).1.filter
            (fun t => decide (t.id_movimiento ≠ r.id_movimiento))) ∧
        egresosTotales c' (limpiar_datos df).1 =
          egresosTotales c' ((limpiar_datos df).1.filter
            (fun t => decide (t.id_movimiento ≠ r.id_movimiento))) := by
  have hnn : noNulos r = true := by simp [noNulos, hf, hq, hs, hc]
  have hmem : conMontoNeto (normalizar { r with monto := to_numeric r.monto })
      ∈ (limpiar_datos df).1 := by
    show _ ∈ limpiar_tabla df
    unfold limpiar_tabla
    exact List.mem_map.2 ⟨_, List.mem_map.2 ⟨_, List.mem_filter.2
      ⟨List.mem_map.2 ⟨r, List.mem_filter.2 ⟨hr, hnn⟩, rfl⟩,
        by simp [hq, to_numeric]⟩, rfl⟩, rfl⟩
  have htipo : (conMontoNeto (normalizar
      { r with monto := to_numeric r.monto })).tipo_operacion =
      some (normLower s) := by
    simp [conMontoNeto, normalizar, hs]
  have hneto : (conMontoNeto (normalizar
      { r with monto := to_numeric r.monto })).monto_neto = some (-q) := by
    simp [conMontoNeto, normalizar, hq, to_numeric, hs, hni]
  have hinj := List.inj_on_of_nodup_map (limpiar_ids_nodup df)
  refine ⟨_, hmem, rfl, htipo, hneto, ?_⟩
  intro c'
  have hene : ∀ (p : Row → Bool),
      (∀ t ∈ (limpiar_datos df).1, p t = true →
        t.tipo_operacion ≠ some (normLower s)) →
      ((limpiar_datos df).1.filter
          (fun t => p t && decide (t.moneda = some c'))).map montoDe =
        (((limpiar_datos df).1.filter
          (fun t => decide (t.id_movimiento ≠ r.id_movimiento))).filter
          (fun t => p t && decide (t.moneda = some c'))).map montoDe := by
    intro p hp
    rw [List.filter_filter]
    congr 1
    apply List.filter_congr
    intro t ht
    by_cases hpt : (p t && decide (t.moneda = some c')) = true
    · rw [hpt, Bool.true_and]
      symm
      rw [decide_eq_true_eq]
      intro hid
      have hteq : t = conMontoNeto (normalizar
          { r with monto := to_numeric r.monto }) :=
        hinj ht hmem (by rw [hid]; rfl)
      rw [Bool.and_eq_true] at hpt
      exact hp t ht hpt.1 (hteq ▸ htipo)
    · rw [Bool.eq_false_iff.2 hpt, Bool.false_and]
  constructor
  · unfold ingresosTotales
    rw [hene esIngreso (fun t _ hpt hteq => by
      rw [esIngreso, decide_eq_true_eq, hteq, Option.some.injEq] at hpt
      exact hni hpt)]
  · unfold egresosTotales
    rw [hene esEgreso (fun t _ hpt hteq => by
      rw [esEgreso, decide_eq_true_eq, hteq, Option.some.injEq] at hpt
      exact hne hpt)]

/-- Lexicographic strict order on code-point strings, the order pandas uses
to sort string group keys. -/
def strLt : Str → Str → Prop
  | [], [] => False
  | [], _ :: _ => True
  | _ :: _, [] => False
  | a :: s, b :: t => a < b ∨ (a = b ∧ strLt s t)

instance strLt.dec : (s t : Str) → Decidable (strLt s t)
  | [], [] => isFalse (fun h => h)
  | [], _ :: _ => isTrue trivial
  | _ :: _, [] => isFalse (fun h => h)
  | _ :: s, _ :: t =>
    @instDecidableOr _ _ _ (@instDecidableAnd _ _ _ (strLt.dec s t))

/-- Reflexive lexicographic order on code-point strings. -/
def strLe (s t : Str) : Prop := strLt s t ∨ s = t

instance (s t : Str) : Decidable (strLe s t) := by
  unfold strLe; infer_instance

lemma strLt_trans : ∀ {s t u : Str}, strLt s t → strLt t u → strLt s u := by
  intro s
  induction s with
  | nil =>
    intro t u h1 h2
    cases t with
    | nil => exact absurd h1 (fun h => h)
    | cons b bs =>
      cases u with
      | nil => exact absurd h2 (fun h => h)
      | cons c cs => trivial
  | cons a as ih =>
    intro t u h1 h2
    cases t with
    | nil => exact absurd h1 (fun h => h)
    | cons b bs =>
      cases u with
      | nil => exact absurd h2 (fun h => h)
      | cons c cs =>
        rcases h1 with h1 | ⟨rfl, h1⟩
        · rcases h2 with h2 | ⟨rfl, h2⟩
          · exact Or.inl (lt_trans h1 h2)
          · exact Or.inl h1
        · rcases h2 with h2 | ⟨rfl, h2⟩
          · exact Or.inl h2
          · exact Or.inr ⟨rfl, ih h1 h2⟩

lemma strLt_trichotomy : ∀ s t : Str, strLt s t ∨ s = t ∨ strLt t s := by
  intro s
  induction s with
  | nil =>
    intro t
    cases t with
    | nil => exact Or.inr (Or.inl rfl)
    | cons b bs => exact Or.inl trivial
  | cons a as ih =>
    intro t
    cases t with
    | nil => exact Or.inr (Or.inr trivial)
    | cons b bs =>
      rcases Nat.lt_trichotomy a b with h | h | h
      · exact Or.inl (Or.inl h)
      · rcases ih bs with h2 | h2 | h2
        · exact Or.inl (Or.inr ⟨h, h2⟩)
        · exact Or.inr (Or.inl (by rw [h, h2]))
        · exact Or.inr (Or.inr (Or.inr ⟨h.symm, h2⟩))
      · exact Or.inr (Or.inr (Or.inl h))

lemma strLe_total (s t : Str) : strLe s t ∨ strLe t s := by
  rcases strLt_trichotomy s t with h | h | h
  · exact Or.inl (Or.inl h)
  · exact Or.inl (Or.inr h)
  · exact Or.inr (Or.inl h)

lemma strLe_trans {s t u : Str} (h1 : strLe s t) (h2 : strLe t u) :
    strLe s u := by
  rcases h1 with h1 | rfl
  · rcases h2 with h2 | rfl
    · exact Or.inl (strLt_trans h1 h2)
    · exact Or.inl h1
  · exact h2

/-- Lexicographic key order for composite `groupby`/`sort_values` keys:
strictly smaller first component, or equal first components and `≤` second
components. -/
def lexLe {α β : Type} (lt : α → α → Prop) (le : β → β → Prop)
    (x y : α × β) : Prop :=
  lt x.1 y.1 ∨ (x.1 = y.1 ∧ le x.2 y.2)

instance {α β : Type} (lt : α → α → Prop) (le : β → β → Prop)
    [DecidableRel lt] [DecidableRel le] [DecidableEq α] :
    DecidableRel (lexLe lt le) := fun x y => by
  unfold lexLe; infer_instance

lemma lexLe_total {α β : Type} (lt : α → α → Prop) (le : β → β → Prop)
    (hlt : ∀ a b, lt a b ∨ a = b ∨ lt b a) (hle : ∀ a b, le a b ∨ le b a)
    (x y : α × β) : lexLe lt le x y ∨ lexLe lt le y x := by
  rcases hlt x.1 y.1 with h | h | h
  · exact Or.inl (Or.inl h)
  · rcases hle x.2 y.2 with h2 | h2
    · exact Or.inl (Or.inr ⟨h, h2⟩)
    · exact Or.inr (Or.inr ⟨h.symm, h2⟩)
  · exact Or.inr (Or.inl h)

lemma lexLe_trans {α β : Type} (lt : α → α → Prop) (le : β → β → Prop)
    (hlt : ∀ {a b c}, lt a b → lt b c → lt a c)
    (hle : ∀ {a b c}, le a b → le b c → le a c)
    {x y z : α × β} (h1 : lexLe lt le x y) (h2 : lexLe lt le y z) :
    lexLe lt le x z := by
  rcases h1 with h1 | ⟨he1, h1⟩
  · rcases h2 with h2 | ⟨he2, h2⟩
    · exact Or.inl (hlt h1 h2)
    · exact Or.inl (he2 ▸ h1)
  · rcases h2 with h2 | ⟨he2, h2⟩
    · exact Or.inl (he1 ▸ h2)
    · exact Or.inr ⟨he1.trans he2, hle h1 h2⟩

/-- Strict lexicographic order on month buckets `(year, month)`. -/
def mesLt (a b : Int × Int) : Prop :=
  a.1 < b.1 ∨ (a.1 = b.1 ∧ a.2 < b.2)

instance (a b : Int × Int) : Decidable (mesLt a b) := by
  unfold mesLt; infer_instance

lemma mesLt_trans {a b c : Int × Int} (h1 : mesLt a b) (h2 : mesLt b c) :
    mesLt a c := by
  unfold mesLt at *
  omega

lemma mesLt_trichotomy (a b : Int × Int) : mesLt a b ∨ a = b ∨ mesLt b a := by
  unfold mesLt
  rw [Prod.ext_iff]
  omega

/-- Model of `df.groupby(ks)` with the pandas defaults `sort=True, dropna=True`:
every row whose key contains a null is dropped, the remaining distinct keys
are listed in ascending order, and each group keeps the input order of its
rows. -/
def groupby {K : Type} [DecidableEq K] (le : K → K → Prop) [DecidableRel le]
    (key : Row → Option K) (rows : List Row) : List (K × List Row) :=
  (List.insertionSort le (rows.filterMap key).dedup).map
    (fun k => (k, rows.filter (fun r => decide (key r = some k))))

/-- Income sum of a group: `x[df.loc[x.index, "tipo_operacion"] ==
"ingreso"].sum()` over the group's `monto` values. -/
def sumIngresos (g : List Row) : ℤ := ((g.filter esIngreso).map montoDe).sum

/-- Expense sum of a group. -/
def sumEgresos (g : List Row) : ℤ := ((g.filter esEgreso).map montoDe).sum

/-- Sum of `monto_neto` over a group (`("monto_neto", "sum")`). -/
def sumNetos (g : List Row) : ℤ := (g.map netoDe).sum

/-- Sum of `monto` over a group (`("monto", "sum")`, the
`volumen_total` aggregation). -/
def sumMontos (g : List Row) : ℤ := (g.map montoDe).sum

/-- One row of the `flujo_diario` view.  (`monto_promedio`-style derived
columns do not occur here; `saldo_acumulado` is `0` until the dedicated
cumulative step fills it, matching the column being absent.) -/
structure FlujoRow where
  fecha : Fecha
  moneda : Str
  total_ingresos : ℤ
  total_egresos : ℤ
  flujo_neto : ℤ
  n_operaciones : Nat
  saldo_acumulado : ℤ
deriving DecidableEq, Repr

/-- One row of the `por_producto` view (the presentation-only
`monto_promedio` column is not carried). -/
structure ProductoRow where
  nombre_producto : Str
  moneda : Str
  n_operaciones : Nat
  total_ingresos : ℤ
  total_egresos : ℤ
deriving DecidableEq, Repr

/-- One row of the `top_contrapartes` view (the presentation-only
`monto_promedio` column is not carried). -/
structure ContraparteRow where
  contraparte : Str
  n_operaciones : Nat
  volumen_total : ℤ
deriving DecidableEq, Repr

/-- One row of the `alertas` view: the `fecha`, `flujo_neto` and
`saldo_acumulado` columns selected from the daily-flow view (the constant
`estado` text column is not carried). -/
structure AlertaRow where
  fecha : Fecha
  flujo_neto : ℤ
  saldo_acumulado : ℤ
deriving DecidableEq, Repr

/-- One row of the `resumen_mensual` view. -/
structure MensualRow where
  mes : Int × Int
  moneda : Str
  total_ingresos : ℤ
  total_egresos : ℤ
  flujo_neto : ℤ
deriving DecidableEq, Repr

/-- The `(fecha, moneda)` group key of a row. -/
def claveFlujo (r : Row) : Option (Fecha × Str) :=
  match r.fecha, r.moneda with
  | some f, some c => some (f, c)
  | _, _ => none

/-- The `(nombre_producto, moneda)` group key of a row (null when the
product name is null, in which case `groupby` drops the row). -/
def claveProducto (r : Row) : Option (Str × Str) :=
  match r.nombre_producto, r.moneda with
  | some n, some c => some (n, c)
  | _, _ => none

/-- The `contraparte` group key of a row. -/
def claveContraparte (r : Row) : Option Str := r.contraparte

/-- The `(mes, moneda)` group key of a row. -/
def claveMes (r : Row) : Option ((Int × Int) × Str) :=
  match r.mes, r.moneda with
  | some m, some c => some (m, c)
  | _, _ => none

/-- The `sort_values(["fecha", "moneda"])` row order of the daily-flow
view. -/
def rFlujo (a b : FlujoRow) : Prop :=
  lexLe Fecha.lt strLe (a.fecha, a.moneda) (b.fecha, b.moneda)

instance (a b : FlujoRow) : Decidable (rFlujo a b) := by
  unfold rFlujo; infer_instance

instance : IsTotal FlujoRow rFlujo :=
  ⟨fun a b => lexLe_total Fecha.lt strLe Fecha.lt_trichotomy strLe_total
    (a.fecha, a.moneda) (b.fecha, b.moneda)⟩

instance : IsTrans FlujoRow rFlujo :=
  ⟨fun _ _ _ h1 h2 => lexLe_trans Fecha.lt strLe
    (fun ha hb => Fecha.lt_trans ha hb) (fun ha hb => strLe_trans ha hb)
    h1 h2⟩

/-- The `sort_values("total_ingresos", ascending=False)` row order of the
product view. -/
def rProducto (a b : ProductoRow) : Prop :=
  b.total_ingresos ≤ a.total_ingresos

instance (a b : ProductoRow) : Decidable (rProducto a b) := by
  unfold rProducto; infer_instance

instance : IsTotal ProductoRow rProducto :=
  ⟨fun a b => le_total b.total_ingresos a.total_ingresos⟩

instance : IsTrans ProductoRow rProducto :=
  ⟨fun _ _ _ h1 h2 => le_trans h2 h1⟩

/-- The `sort_values("volumen_total", ascending=False)` row order of the
top-counterparties view. -/
def rContraparte (a b : ContraparteRow) : Prop :=
  b.volumen_total ≤ a.volumen_total

instance (a b : ContraparteRow) : Decidable (rContraparte a b) := by
  unfold rContraparte; infer_instance

instance : IsTotal ContraparteRow rContraparte :=
  ⟨fun a b => le_total b.volumen_total a.volumen_total⟩

instance : IsTrans ContraparteRow rContraparte :=
  ⟨fun _ _ _ h1 h2 => le_trans h2 h1⟩

/-- The `sort_values("flujo_neto")` (ascending) row order of the alerts
view. -/
def rAlerta (a b : AlertaRow) : Prop := a.flujo_neto ≤ b.flujo_neto

instance (a b : AlertaRow) : Decidable (rAlerta a b) := by
  unfold rAlerta; infer_instance

instance : IsTotal AlertaRow rAlerta :=
  ⟨fun a b => le_total a.flujo_neto b.flujo_neto⟩

instance : IsTrans AlertaRow rAlerta :=
  ⟨fun _ _ _ h1 h2 => le_trans h1 h2⟩

/-- Steps 3.1 of `calcular_kpis`: group by `(fecha, moneda)`, aggregate,
and `sort_values(["fecha", "moneda"])`; `saldo_acumulado` not yet filled. -/
def flujoDiarioBase (df : List Row) : List FlujoRow :=
  List.insertionSort rFlujo
    ((groupby (lexLe Fecha.lt strLe) claveFlujo df).map
      (fun kg =>
        { fecha := kg.1.1
          moneda := kg.1.2
          total_ingresos := sumIngresos kg.2
          total_egresos := sumEgresos kg.2
          flujo_neto := sumNetos kg.2
          n_operaciones := kg.2.length
          saldo_acumulado := 0 }))

/-- Step 3.2, `groupby("moneda")["flujo_neto"].cumsum()`: each row's
`saldo_acumulado` becomes the sum of `flujo_neto` over the rows up to and
including it (in the current row order) that share its currency;
`antes` accumulates the already-processed prefix. -/
def conSaldoDesde (antes : List FlujoRow) : List FlujoRow → List FlujoRow
  | [] => []
  | t :: ts =>
    { t with saldo_acumulado :=
        (((antes ++ [t]).filter
          (fun u => decide (u.moneda = t.moneda))).map
          (fun u => u.flujo_neto)).sum } ::
      conSaldoDesde (antes ++ [t]) ts

/-- The finished daily-flow view: aggregation, sort, cumulative balance. -/
def flujoDiario (df : List Row) : List FlujoRow :=
  conSaldoDesde [] (flujoDiarioBase df)

/-- Step 3.3: the per-product view, sorted by `total_ingresos`
descending. -/
def porProducto (df : List Row) : List ProductoRow :=
  List.insertionSort rProducto
    ((groupby (lexLe strLt strLe) claveProducto df).map
      (fun kg =>
        { nombre_producto := kg.1.1
          moneda := kg.1.2
          n_operaciones := kg.2.length
          total_ingresos := sumIngresos kg.2
          total_egresos := sumEgresos kg.2 }))

/-- Step 3.4: the top-counterparties view, sorted by `volumen_total`
descending and truncated with `head(10)`. -/
def topContrapartes (df : List Row) : List ContraparteRow :=
  (List.insertionSort rContraparte
    ((groupby strLe claveContraparte df).map
      (fun kg =>
        { contraparte := kg.1
          n_operaciones := kg.2.length
          volumen_total := sumMontos kg.2 }))).take 10

/-- Step 3.5: the liquidity alerts — daily-flow rows restricted to `PEN`,
then to strictly negative net flow, with the three columns selected,
sorted ascending by `flujo_neto`. -/
def alertasDe (fl : List FlujoRow) : List AlertaRow :=
  List.insertionSort rAlerta
    (((fl.filter (fun t => decide (t.moneda = strPEN))).filter
      (fun t => decide (t.flujo_neto < 0))).map
      (fun t =>
        { fecha := t.fecha
          flujo_neto := t.flujo_neto
          saldo_acumulado := t.saldo_acumulado }))

/-- The in-place column assignment
`df["mes"] = df["fecha"].dt.to_period("M").astype(str)` on one row. -/
def conMes (r : Row) : Row := { r with mes := r.fecha.map Fecha.mes }

/-- Step 3.6: the monthly view, grouped by `(mes, moneda)` over the frame
that now carries the `mes` column; no further `sort_values`. -/
def resumenMensual (df : List Row) : List MensualRow :=
  (groupby (lexLe mesLt strLe) claveMes df).map
    (fun kg =>
      { mes := kg.1.1
        moneda := kg.1.2
        total_ingresos := sumIngresos kg.2
        total_egresos := sumEgresos kg.2
        flujo_neto := sumNetos kg.2 })

/-- The five views returned by `calcular_kpis`, plus the state of the
caller's frame after the call (`calcular_kpis` assigns the `mes` column
into its argument before computing the monthly view, so the caller's frame
differs from what was passed in). -/
structure KPIs where
  flujo_diario : List FlujoRow
  por_producto : List ProductoRow
  top_contrapartes : List ContraparteRow
  alertas : List AlertaRow
  resumen_mensual : List MensualRow
  dfDespues : List Row
deriving DecidableEq, Repr

/-- Aggregation step `calcular_kpis`: the flujo/producto/contrapartes/alertas views read the
argument as passed; the `mes` assignment then mutates it, and the monthly
view reads the mutated frame, which is also what the caller retains. -/
def calcular_kpis (df : List Row) : KPIs :=
  { flujo_diario := flujoDiario df
    por_producto := porProducto df
    top_contrapartes := topContrapartes df
    alertas := alertasDe (flujoDiario df)
    resumen_mensual := resumenMensual (df.map conMes)
    dfDespues := df.map conMes }

lemma sum_if_single {K : Type} [DecidableEq K] (l : List K) (hnd : l.Nodup)
    (k0 : K) (v : ℤ) :
    (l.map (fun k => if k = k0 then v else 0)).sum =
      if k0 ∈ l then v else 0 := by
  induction l with
  | nil => simp
  | cons a l ih =>
    rw [List.nodup_cons] at hnd
    rw [List.map_cons, List.sum_cons, ih hnd.2]
    by_cases ha : a = k0
    · subst ha
      rw [if_pos rfl, if_neg hnd.1, if_pos (List.mem_cons_self a l)]
      simp
    · rw [if_neg ha, zero_add]
      have ha' : ¬(k0 = a) := fun h => ha h.symm
      by_cases hm : k0 ∈ l
      · rw [if_pos hm, if_pos (List.mem_cons_of_mem _ hm)]
      · rw [if_neg hm, if_neg (by simp [List.mem_cons, ha', hm])]

/-- Partition lemma: if `keys` lists, without repetition, every group key
occurring in `rows`, then summing a per-group sum over the keys selected by
`p` equals one global sum over the rows whose key satisfies `p` (rows with
a null key count for no group). -/
lemma sum_groups {K : Type} [DecidableEq K] (keys : List K) (hnd : keys.Nodup)
    (key : Row → Option K) (p : K → Bool) (f : Row → ℤ) :
    ∀ rows : List Row,
      (∀ r ∈ rows, ∀ k, key r = some k → k ∈ keys) →
      ((keys.filter p).map
        (fun k => ((rows.filter
          (fun r => decide (key r = some k))).map f).sum)).sum =
      ((rows.filter (fun r => ((key r).map p).getD false)).map f).sum := by
  intro rows
  induction rows with
  | nil =>
    intro _
    simp
  | cons r rows ih =>
    intro hcomp
    have ihr := ih (fun t ht k hk => hcomp t (List.mem_cons_of_mem _ ht) k hk)
    simp only [List.filter_cons]
    cases hkr : key r with
    | none =>
      have hz : ∀ k : K, (decide ((none : Option K) = some k)) = false :=
        fun k => by simp
      simp only [hz, Option.map_none', Option.getD_none, Bool.false_eq_true,
        if_false]
      exact ihr
    | some k0 =>
      have hterm : ∀ k : K,
          ((if decide ((some k0 : Option K) = some k) = true then
              r :: rows.filter (fun t => decide (key t = some k))
            else rows.filter (fun t => decide (key t = some k))).map f).sum =
          (if k = k0 then f r else 0) +
            ((rows.filter (fun t => decide (key t = some k))).map f).sum := by
        intro k
        by_cases hk : k = k0
        · subst hk
          simp
        · have h1 : decide ((some k0 : Option K) = some k) = false := by
            simp only [Option.some.injEq]
            exact decide_eq_false (fun h => hk h.symm)
          rw [h1]
          simp [hk]
      rw [List.map_congr_left (fun k _ => hterm k), List.sum_map_add, ihr,
        sum_if_single _ (hnd.filter p) k0 (f r)]
      have hk0 : k0 ∈ keys := hcomp r (List.mem_cons_self _ _) k0 hkr
      by_cases hp : p k0 = true
      · rw [if_pos (List.mem_filter.2 ⟨hk0, hp⟩),
          show (((some k0 : Option K).map p).getD false) = p k0 from rfl, hp,
          if_pos rfl, List.map_cons, List.sum_cons]
      · have hpf : p k0 = false := Bool.eq_false_iff.mpr hp
        rw [if_neg (fun hmem => hp (List.mem_filter.1 hmem).2),
          show (((some k0 : Option K).map p).getD false) = p k0 from rfl, hpf,
          if_neg Bool.false_ne_true, zero_add]

/-- Reconciliation of `groupby` sums: for any key-selection `p`, row-class `g`
(income test, expense test, or everything) and summed column `f`, the sum
over the selected groups of the per-group class sum equals the global class
sum over the rows whose key satisfies `p`. -/
lemma groupby_sum {K : Type} [DecidableEq K] (le : K → K → Prop)
    [DecidableRel le] (key : Row → Option K) (rows : List Row)
    (p : K → Bool) (g : Row → Bool) (f : Row → ℤ) :
    (((groupby le key rows).filter (fun kg => p kg.1)).map
      (fun kg => ((kg.2.filter g).map f).sum)).sum =
    (((rows.filter g).filter
      (fun r => ((key r).map p).getD false)).map f).sum := by
  unfold groupby
  rw [List.filter_map, List.map_map]
  have hstep : (List.insertionSort le (rows.filterMap key).dedup).filter
      ((fun kg : K × List Row => p kg.1) ∘
        (fun k => (k, rows.filter (fun r => decide (key r = some k))))) =
      (List.insertionSort le (rows.filterMap key).dedup).filter p := rfl
  rw [hstep]
  have hfun : ∀ k ∈ (List.insertionSort le (rows.filterMap key).dedup).filter p,
      ((fun kg : K × List Row => ((kg.2.filter g).map f).sum) ∘
        (fun k => (k, rows.filter (fun r => decide (key r = some k))))) k =
      (((rows.filter g).filter
        (fun r => decide (key r = some k))).map f).sum := by
    intro k _
    show ((List.filter g (List.filter _ rows)).map f).sum = _
    rw [List.filter_comm]
  rw [List.map_congr_left hfun]
  refine sum_groups _ ?_ key p f (rows.filter g) ?_
  · exact ((List.perm_insertionSort le _).nodup_iff).2 (List.nodup_dedup _)
  · intro t ht k hk
    exact ((List.perm_insertionSort le _).mem_iff).2
      (List.mem_dedup.2 (List.mem_filterMap.2
        ⟨t, List.mem_of_mem_filter ht, hk⟩))

/-- Sum of the daily-flow view's `total_ingresos` column over one
currency's rows. -/
def ingresosFlujo (c : Str) (fl : List FlujoRow) : ℤ :=
  ((fl.filter (fun t => decide (t.moneda = c))).map
    (fun t => t.total_ingresos)).sum

/-- Sum of the daily-flow view's `total_egresos` column over one currency's
rows. -/
def egresosFlujo (c : Str) (fl : List FlujoRow) : ℤ :=
  ((fl.filter (fun t => decide (t.moneda = c))).map
    (fun t => t.total_egresos)).sum

/-- Sum of the daily-flow view's `flujo_neto` column over one currency's
rows. -/
def netosFlujo (c : Str) (fl : List FlujoRow) : ℤ :=
  ((fl.filter (fun t => decide (t.moneda = c))).map
    (fun t => t.flujo_neto)).sum

/-- Sum of the product view's `total_ingresos` column over one currency's
rows. -/
def ingresosProducto (c : Str) (pp : List ProductoRow) : ℤ :=
  ((pp.filter (fun t => decide (t.moneda = c))).map
    (fun t => t.total_ingresos)).sum

/-- Sum of the product view's `total_egresos` column over one currency's
rows. -/
def egresosProducto (c : Str) (pp : List ProductoRow) : ℤ :=
  ((pp.filter (fun t => decide (t.moneda = c))).map
    (fun t => t.total_egresos)).sum

/-- Sum of the monthly view's `total_ingresos` column over one currency's
rows. -/
def ingresosMensual (c : Str) (mm : List MensualRow) : ℤ :=
  ((mm.filter (fun t => decide (t.moneda = c))).map
    (fun t => t.total_ingresos)).sum

/-- Sum of the monthly view's `total_egresos` column over one currency's
rows. -/
def egresosMensual (c : Str) (mm : List MensualRow) : ℤ :=
  ((mm.filter (fun t => decide (t.moneda = c))).map
    (fun t => t.total_egresos)).sum

lemma conSaldo_sum (p : FlujoRow → Bool) (v : FlujoRow → ℤ)
    (hp : ∀ t s, p { t with saldo_acumulado := s } = p t)
    (hv : ∀ t s, v { t with saldo_acumulado := s } = v t) :
    ∀ (l antes : List FlujoRow),
      (((conSaldoDesde antes l).filter p).map v).sum =
        ((l.filter p).map v).sum := by
  intro l
  induction l with
  | nil => intro antes; rfl
  | cons t ts ih =>
    intro antes
    simp only [conSaldoDesde, List.filter_cons, hp]
    by_cases hpt : p t = true
    · rw [if_pos hpt, if_pos hpt, List.map_cons, List.sum_cons, hv, ih,
        List.map_cons, List.sum_cons]
    · rw [if_neg hpt, if_neg hpt, ih]

lemma claveFlujo_pred (r : Row) (hno : noNulos r = true) (c : Str) :
    ((claveFlujo r).map (fun k => decide (k.2 = c))).getD false =
      decide (r.moneda = some c) := by
  simp only [noNulos, Bool.and_eq_true, Option.isSome_iff_exists] at hno
  obtain ⟨⟨⟨⟨f, hf⟩, -⟩, -⟩, m, hm⟩ := hno
  unfold claveFlujo
  rw [hf, hm]
  simp [Option.some.injEq]

lemma claveProducto_pred (r : Row) (hno : noNulos r = true) (c : Str) :
    ((claveProducto r).map (fun k => decide (k.2 = c))).getD false =
      (r.nombre_producto.isSome && decide (r.moneda = some c)) := by
  simp only [noNulos, Bool.and_eq_true, Option.isSome_iff_exists] at hno
  obtain ⟨⟨⟨-, -⟩, -⟩, m, hm⟩ := hno
  unfold claveProducto
  cases hn : r.nombre_producto with
  | none => rw [hm]; rfl
  | some n =>
    rw [hm]
    simp [Option.some.injEq]

lemma claveMes_pred (r : Row) (hno : noNulos r = true) (c : Str) :
    ((claveMes (conMes r)).map (fun k => decide (k.2 = c))).getD false =
      decide (r.moneda = some c) := by
  simp only [noNulos, Bool.and_eq_true, Option.isSome_iff_exists] at hno
  obtain ⟨⟨⟨⟨f, hf⟩, -⟩, -⟩, m, hm⟩ := hno
  unfold claveMes conMes
  simp only [hf, hm]
  simp [Option.some.injEq]

lemma ingresosFlujo_base (df : List Row) (c : Str) :
    ingresosFlujo c (flujoDiario df) =
      (((df.filter esIngreso).filter
        (fun r => ((claveFlujo r).map
          (fun k => decide (k.2 = c))).getD false)).map montoDe).sum := by
  have h1 : ingresosFlujo c (flujoDiario df) =
      ingresosFlujo c (flujoDiarioBase df) :=
    conSaldo_sum (fun t => decide (t.moneda = c)) (fun t => t.total_ingresos)
      (fun t s => rfl) (fun t s => rfl) (flujoDiarioBase df) []
  rw [h1]
  unfold ingresosFlujo flujoDiarioBase
  rw [(((List.perm_insertionSort rFlujo _).filter _).map _).sum_eq,
    List.filter_map, List.map_map]
  exact groupby_sum (lexLe Fecha.lt strLe) claveFlujo df
    (fun k => decide (k.2 = c)) esIngreso montoDe

lemma egresosFlujo_base (df : List Row) (c : Str) :
    egresosFlujo c (flujoDiario df) =
      (((df.filter esEgreso).filter
        (fun r => ((claveFlujo r).map
          (fun k => decide (k.2 = c))).getD false)).map montoDe).sum := by
  have h1 : egresosFlujo c (flujoDiario df) =
      egresosFlujo c (flujoDiarioBase df) :=
    conSaldo_sum (fun t => decide (t.moneda = c)) (fun t => t.total_egresos)
      (fun t s => rfl) (fun t s => rfl) (flujoDiarioBase df) []
  rw [h1]
  unfold egresosFlujo flujoDiarioBase
  rw [(((List.perm_insertionSort rFlujo _).filter _).map _).sum_eq,
    List.filter_map, List.map_map]
  exact groupby_sum (lexLe Fecha.lt strLe) claveFlujo df
    (fun k => decide (k.2 = c)) esEgreso montoDe

lemma netosFlujo_base (df : List Row) (c : Str) :
    netosFlujo c (flujoDiario df) =
      (((df.filter (fun _ => true)).filter
        (fun r => ((claveFlujo r).map
          (fun k => decide (k.2 = c))).getD false)).map netoDe).sum := by
  have h1 : netosFlujo c (flujoDiario df) =
      netosFlujo c (flujoDiarioBase df) :=
    conSaldo_sum (fun t => decide (t.moneda = c)) (fun t => t.flujo_neto)
      (fun t s => rfl) (fun t s => rfl) (flujoDiarioBase df) []
  rw [h1]
  unfold netosFlujo flujoDiarioBase
  rw [(((List.perm_insertionSort rFlujo _).filter _).map _).sum_eq,
    List.filter_map, List.map_map]
  show (((groupby (lexLe Fecha.lt strLe) claveFlujo df).filter
      (fun kg => decide (kg.1.2 = c))).map
      (fun kg => (kg.2.map netoDe).sum)).sum = _
  rw [List.map_congr_left (fun kg _ => by rw [List.filter_true] :
    ∀ kg ∈ (groupby (lexLe Fecha.lt strLe) claveFlujo df).filter
      (fun kg => decide (kg.1.2 = c)),
      (kg.2.map netoDe).sum = ((kg.2.filter (fun _ => true)).map netoDe).sum)]
  exact groupby_sum (lexLe Fecha.lt strLe) claveFlujo df
    (fun k => decide (k.2 = c)) (fun _ => true) netoDe

lemma ingresosProducto_base (df : List Row) (c : Str) :
    ingresosProducto c (porProducto df) =
      (((df.filter esIngreso).filter
        (fun r => ((claveProducto r).map
          (fun k => decide (k.2 = c))).getD false)).map montoDe).sum := by
  unfold ingresosProducto porProducto
  rw [(((List.perm_insertionSort rProducto _).filter _).map _).sum_eq,
    List.filter_map, List.map_map]
  exact groupby_sum (lexLe strLt strLe) claveProducto df
    (fun k => decide (k.2 = c)) esIngreso montoDe

lemma egresosProducto_base (df : List Row) (c : Str) :
    egresosProducto c (porProducto df) =
      (((df.filter esEgreso).filter
        (fun r => ((claveProducto r).map
          (fun k => decide (k.2 = c))).getD false)).map montoDe).sum := by
  unfold egresosProducto porProducto
  rw [(((List.perm_insertionSort rProducto _).filter _).map _).sum_eq,
    List.filter_map, List.map_map]
  exact groupby_sum (lexLe strLt strLe) claveProducto df
    (fun k => decide (k.2 = c)) esEgreso montoDe

lemma ingresosMensual_base (df : List Row) (c : Str) :
    ingresosMensual c (resumenMensual df) =
      (((df.filter esIngreso).filter
        (fun r => ((claveMes r).map
          (fun k => decide (k.2 = c))).getD false)).map montoDe).sum := by
  unfold ingresosMensual resumenMensual
  rw [List.filter_map, List.map_map]
  exact groupby_sum (lexLe mesLt strLe) claveMes df
    (fun k => decide (k.2 = c)) esIngreso montoDe

lemma egresosMensual_base (df : List Row) (c : Str) :
    egresosMensual c (resumenMensual df) =
      (((df.filter esEgreso).filter
        (fun r => ((claveMes r).map
          (fun k => decide (k.2 = c))).getD false)).map montoDe).sum := by
  unfold egresosMensual resumenMensual
  rw [List.filter_map, List.map_map]
  exact groupby_sum (lexLe mesLt strLe) claveMes df
    (fun k => decide (k.2 = c)) esEgreso montoDe

lemma filtro_clave_flujo (cl : List Row) (hcl : ∀ r ∈ cl, noNulos r = true)
    (g : Row → Bool) (c : Str) :
    (cl.filter g).filter (fun r => ((claveFlujo r).map
      (fun k => decide (k.2 = c))).getD false) =
    cl.filter (fun r => g r && decide (r.moneda = some c)) := by
  rw [List.filter_filter]
  apply List.filter_congr
  intro r hr
  rw [claveFlujo_pred r (hcl r hr) c, Bool.and_comm]

lemma filtro_clave_producto (cl : List Row)
    (hcl : ∀ r ∈ cl, noNulos r = true) (g : Row → Bool) (c : Str) :
    (cl.filter g).filter (fun r => ((claveProducto r).map
      (fun k => decide (k.2 = c))).getD false) =
    (cl.filter (fun r => r.nombre_producto.isSome)).filter
      (fun r => g r && decide (r.moneda = some c)) := by
  rw [List.filter_filter, List.filter_filter]
  apply List.filter_congr
  intro r hr
  rw [claveProducto_pred r (hcl r hr) c]
  cases g r <;> cases r.nombre_producto.isSome <;>
    cases decide (r.moneda = some c) <;> rfl

lemma filtro_clave_mensual (cl : List Row)
    (hcl : ∀ r ∈ cl, noNulos r = true) (g : Row → Bool)
    (hg : ∀ r, g (conMes r) = g r) (c : Str) :
    (((cl.map conMes).filter g).filter (fun r => ((claveMes r).map
      (fun k => decide (k.2 = c))).getD false)).map montoDe =
    (cl.filter (fun r => g r && decide (r.moneda = some c))).map montoDe := by
  rw [List.filter_filter, List.filter_map, List.map_map]
  transitivity (cl.filter
    (fun r => g r && decide (r.moneda = some c))).map (montoDe ∘ conMes)
  · congr 1
    apply List.filter_congr
    intro r hr
    show (((claveMes (conMes r)).map (fun k => decide (k.2 = c))).getD false
      && g (conMes r)) = _
    rw [claveMes_pred r (hcl r hr) c, hg r, Bool.and_comm]
  · exact List.map_congr_left (fun r _ => rfl)

/-- C1 (amended).  For every input table and every currency, the
daily-flow and monthly views reconcile exactly against the cleaned table:
their per-group income (resp. expense) totals sum to the global income
(resp. expense) total of that currency.  The product view reconciles
against the cleaned rows *whose product name is non-null*: `groupby`
silently drops rows with a null group key, so rows kept by the left join
with an unmatched `producto_id` are missing from the product view's
totals. -/
theorem vistas_reconcilian (df0 : List Row) (c : Str) :
    ingresosFlujo c (calcular_kpis (limpiar_datos df0).1).flujo_diario =
        ingresosTotales c (limpiar_datos df0).1 ∧
    egresosFlujo c (calcular_kpis (limpiar_datos df0).1).flujo_diario =
        egresosTotales c (limpiar_datos df0).1 ∧
    ingresosMensual c (calcular_kpis (limpiar_datos df0).1).resumen_mensual =
        ingresosTotales c (limpiar_datos df0).1 ∧
    egresosMensual c (calcular_kpis (limpiar_datos df0).1).resumen_mensual =
        egresosTotales c (limpiar_datos df0).1 ∧
    ingresosProducto c (calcular_kpis (limpiar_datos df0).1).por_producto =
        ingresosTotales c ((limpiar_datos df0).1.filter
          (fun r => r.nombre_producto.isSome)) ∧
    egresosProducto c (calcular_kpis (limpiar_datos df0).1).por_producto =
        egresosTotales c ((limpiar_datos df0).1.filter
          (fun r => r.nombre_producto.isSome)) := by
  have hcl : ∀ r ∈ (limpiar_datos df0).1, noNulos r = true :=
    fun r hr => (mem_limpiar hr).1
  refine ⟨?_, ?_, ?_, ?_, ?_, ?_⟩
  · rw [show (calcular_kpis (limpiar_datos df0).1).flujo_diario =
        flujoDiario (limpiar_datos df0).1 from rfl,
      ingresosFlujo_base, filtro_clave_flujo _ hcl esIngreso c]
    rfl
  · rw [show (calcular_kpis (limpiar_datos df0).1).flujo_diario =
        flujoDiario (limpiar_datos df0).1 from rfl,
      egresosFlujo_base, filtro_clave_flujo _ hcl esEgreso c]
    rfl
  · rw [show (calcular_kpis (limpiar_datos df0).1).resumen_mensual =
        resumenMensual ((limpiar_datos df0).1.map conMes) from rfl,
      ingresosMensual_base, filtro_clave_mensual _ hcl esIngreso
        (fun r => rfl) c]
    rfl
  · rw [show (calcular_kpis (limpiar_datos df0).1).resumen_mensual =
        resumenMensual ((limpiar_datos df0).1.map conMes) from rfl,
      egresosMensual_base, filtro_clave_mensual _ hcl esEgreso
        (fun r => rfl) c]
    rfl
  · rw [show (calcular_kpis (limpiar_datos df0).1).por_producto =
        porProducto (limpiar_datos df0).1 from rfl,
      ingresosProducto_base, filtro_clave_producto _ hcl esIngreso c]
    rfl
  · rw [show (calcular_kpis (limpiar_datos df0).1).por_producto =
        porProducto (limpiar_datos df0).1 from rfl,
      egresosProducto_base, filtro_clave_producto _ hcl esEgreso c]
    rfl

/-- The string `"BCP"` as code points. -/
def strBCP : Str := [66, 67, 80]

/-- A movement whose `producto_id` (99) has no match in the product
table. -/
def ej1mov : Mov :=
  { id_movimiento := 1, fecha := some ⟨2024, 1, 2⟩, producto_id := 99,
    tipo_operacion := some strIngreso, monto := some (some 100),
    moneda := some strPEN, contraparte := some strBCP, descripcion := none }

/-- A product table that does not contain id 99. -/
def ej1prods : List Producto := [{ producto_id := 1, nombre_producto := [68] }]

/-- C1 (counterexample).  With one cleaned `PEN` income row whose
product name is null (its `producto_id` is unmatched by the left join), the
product view's income totals for `PEN` sum to `0` while the global `PEN`
income total is `100`: the product view does **not** reconcile against the
cleaned transaction set when a row's product name is null. -/
theorem producto_no_reconcilia_con_nombre_nulo :
    ingresosProducto strPEN (calcular_kpis
        (limpiar_datos (cargar_datos [ej1mov] ej1prods)).1).por_producto ≠
      ingresosTotales strPEN
        (limpiar_datos (cargar_datos [ej1mov] ej1prods)).1 := by
  decide

lemma Fecha.le_refl (a : Fecha) : Fecha.le a a := Or.inr rfl

lemma Fecha.le_antisymm {a b : Fecha} (h1 : Fecha.le a b)
    (h2 : Fecha.le b a) : a = b := by
  rcases h1 with h1 | rfl
  · rcases h2 with h2 | rfl
    · unfold Fecha.lt at h1 h2
      ext <;> omega
    · rfl
  · rfl

lemma rFlujo_fecha_le {a b : FlujoRow} (h : rFlujo a b) :
    Fecha.le a.fecha b.fecha := by
  rcases h with h | ⟨h, -⟩
  · exact Or.inl h
  · exact Or.inr h

lemma conSaldoDesde_mem :
    ∀ (l antes : List FlujoRow) (x : FlujoRow),
      x ∈ conSaldoDesde antes l →
      ∃ u ∈ l, ∃ s, x = { u with saldo_acumulado := s } := by
  intro l
  induction l with
  | nil =>
    intro antes x hx
    simp [conSaldoDesde] at hx
  | cons u ts ih =>
    intro antes x hx
    rcases List.mem_cons.1 hx with h | h
    · exact ⟨u, List.mem_cons_self _ _, _, h⟩
    · obtain ⟨w, hw, sw, hxw⟩ := ih (antes ++ [u]) x h
      exact ⟨w, List.mem_cons_of_mem _ hw, sw, hxw⟩

lemma conSaldoDesde_claves :
    ∀ (l antes : List FlujoRow),
      (conSaldoDesde antes l).map (fun t => (t.fecha, t.moneda)) =
        l.map (fun t => (t.fecha, t.moneda)) := by
  intro l
  induction l with
  | nil => intro antes; rfl
  | cons u ts ih =>
    intro antes
    simp only [conSaldoDesde, List.map_cons, ih]

lemma conSaldoDesde_pairwise (R : FlujoRow → FlujoRow → Prop)
    (hR : ∀ a b sa sb, R a b →
      R { a with saldo_acumulado := sa } { b with saldo_acumulado := sb }) :
    ∀ (l antes : List FlujoRow), l.Pairwise R →
      (conSaldoDesde antes l).Pairwise R := by
  intro l
  induction l with
  | nil => intro antes _; exact List.Pairwise.nil
  | cons u ts ih =>
    intro antes hp
    rw [List.pairwise_cons] at hp
    refine List.pairwise_cons.2 ⟨?_, ih (antes ++ [u]) hp.2⟩
    intro x hx
    obtain ⟨w, hw, sw, rfl⟩ := conSaldoDesde_mem ts (antes ++ [u]) x hx
    exact hR u w _ sw (hp.1 w hw)

lemma flujoDiarioBase_sorted (df : List Row) :
    List.Sorted rFlujo (flujoDiarioBase df) :=
  List.sorted_insertionSort rFlujo _

lemma flujoDiarioBase_claves_nodup (df : List Row) :
    ((flujoDiarioBase df).map (fun t => (t.fecha, t.moneda))).Nodup := by
  unfold flujoDiarioBase
  rw [((List.perm_insertionSort rFlujo _).map
    (fun t => (t.fecha, t.moneda))).nodup_iff, List.map_map]
  unfold groupby
  rw [List.map_map]
  show (List.map (fun k => k) (List.insertionSort (lexLe Fecha.lt strLe)
    (df.filterMap claveFlujo).dedup)).Nodup
  rw [List.map_id']
  exact ((List.perm_insertionSort _ _).nodup_iff).2 (List.nodup_dedup _)

/-- The cumulative-balance invariant of `conSaldoDesde`: when the whole
sorted, key-distinct row list is `antes ++ l`, every produced row's
`saldo_acumulado` equals the sum of `flujo_neto` over all rows of the whole
list with the same currency and a date `≤` its own. -/
lemma conSaldoDesde_saldo :
    ∀ (l antes full : List FlujoRow),
      full = antes ++ l →
      List.Sorted rFlujo full →
      ((full.map (fun t => (t.fecha, t.moneda))).Nodup) →
      ∀ t ∈ conSaldoDesde antes l,
        t.saldo_acumulado = ((full.filter (fun u =>
          decide (u.moneda = t.moneda) &&
          decide (Fecha.le u.fecha t.fecha))).map
          (fun u => u.flujo_neto)).sum := by
  intro l
  induction l with
  | nil =>
    intro antes full _ _ _ t ht
    simp [conSaldoDesde] at ht
  | cons u ts ih =>
    intro antes full hfull hsort hnd t ht
    rcases List.mem_cons.1 ht with rfl | h
    · show (((antes ++ [u]).filter
          (fun x => decide (x.moneda = u.moneda))).map
          (fun x => x.flujo_neto)).sum =
        ((full.filter (fun x => decide (x.moneda = u.moneda) &&
          decide (Fecha.le x.fecha u.fecha))).map
          (fun x => x.flujo_neto)).sum
      have hfull2 : full = (antes ++ [u]) ++ ts := by
        rw [hfull, List.append_assoc, List.singleton_append]
      have hpw : List.Pairwise rFlujo (antes ++ u :: ts) := hfull ▸ hsort
      rw [List.pairwise_append] at hpw
      obtain ⟨hpa, hpc, hcross⟩ := hpw
      rw [List.pairwise_cons] at hpc
      -- every earlier-or-equal row automatically has date ≤ u's date
      have hA : (antes ++ [u]).filter (fun x =>
          decide (x.moneda = u.moneda) &&
          decide (Fecha.le x.fecha u.fecha)) =
          (antes ++ [u]).filter (fun x => decide (x.moneda = u.moneda)) := by
        apply List.filter_congr
        intro x hxm
        rcases List.mem_append.1 hxm with hx | hx
        · have hle : Fecha.le x.fecha u.fecha :=
            rFlujo_fecha_le (hcross x hx u (List.mem_cons_self _ _))
          rw [decide_eq_true hle, Bool.and_true]
        · rw [List.mem_singleton] at hx
          subst hx
          rw [decide_eq_true (Fecha.le_refl _), Bool.and_true]
      -- no later row qualifies: it would share the (fecha, moneda) key
      have hB : ts.filter (fun x =>
          decide (x.moneda = u.moneda) &&
          decide (Fecha.le x.fecha u.fecha)) = [] := by
        rw [List.filter_eq_nil_iff]
        intro x hx hcontra
        rw [Bool.and_eq_true, decide_eq_true_eq, decide_eq_true_eq] at hcontra
        have hle2 : Fecha.le u.fecha x.fecha :=
          rFlujo_fecha_le (hpc.1 x hx)
        have hfe : x.fecha = u.fecha := Fecha.le_antisymm hcontra.2 hle2
        have hkey : (x.fecha, x.moneda) = (u.fecha, u.moneda) := by
          rw [hfe, hcontra.1]
        rw [hfull, List.map_append, List.map_cons, List.nodup_append] at hnd
        have := List.nodup_cons.1 hnd.2.1
        exact this.1 (hkey ▸ List.mem_map.2 ⟨x, hx, rfl⟩)
      conv_rhs => rw [hfull2, List.filter_append, hB, List.append_nil, hA]
    · exact ih (antes ++ [u]) full
        (by rw [hfull, List.append_assoc, List.singleton_append]) hsort hnd
        t h

/-- C2.  For every cleaned table and every currency: (1) the daily-flow
view's `flujo_neto` values for that currency sum to the cleaned
transactions' `monto_neto` sum restricted to that currency; (2) every view
row's `saldo_acumulado` equals the sum of the view's net flows over the
same-currency rows with date `≤` its own; (3) hence at a currency's last
date the cumulative balance equals that currency's total net flow. -/
theorem flujo_diario_cumsum (df0 : List Row) (c : Str) :
    netosFlujo c (calcular_kpis (limpiar_datos df0).1).flujo_diario =
        netosTotales c (limpiar_datos df0).1 ∧
    (∀ t ∈ (calcular_kpis (limpiar_datos df0).1).flujo_diario,
      t.saldo_acumulado =
        (((calcular_kpis (limpiar_datos df0).1).flujo_diario.filter
          (fun u => decide (u.moneda = t.moneda) &&
            decide (Fecha.le u.fecha t.fecha))).map
          (fun u => u.flujo_neto)).sum) ∧
    (∀ t ∈ (calcular_kpis (limpiar_datos df0).1).flujo_diario,
      (∀ u ∈ (calcular_kpis (limpiar_datos df0).1).flujo_diario,
        u.moneda = t.moneda → Fecha.le u.fecha t.fecha) →
      t.saldo_acumulado = netosFlujo t.moneda
        (calcular_kpis (limpiar_datos df0).1).flujo_diario) := by
  have hcl : ∀ r ∈ (limpiar_datos df0).1, noNulos r = true :=
    fun r hr => (mem_limpiar hr).1
  have h2 : ∀ t ∈ (calcular_kpis (limpiar_datos df0).1).flujo_diario,
      t.saldo_acumulado =
        (((calcular_kpis (limpiar_datos df0).1).flujo_diario.filter
          (fun u => decide (u.moneda = t.moneda) &&
            decide (Fecha.le u.fecha t.fecha))).map
          (fun u => u.flujo_neto)).sum := by
    intro t ht
    show t.saldo_acumulado = (((conSaldoDesde []
      (flujoDiarioBase (limpiar_datos df0).1)).filter
      (fun u => decide (u.moneda = t.moneda) &&
        decide (Fecha.le u.fecha t.fecha))).map
      (fun u => u.flujo_neto)).sum
    rw [conSaldoDesde_saldo (flujoDiarioBase (limpiar_datos df0).1) [] _
      rfl (flujoDiarioBase_sorted _) (flujoDiarioBase_claves_nodup _) t ht]
    exact (conSaldo_sum (fun u => decide (u.moneda = t.moneda) &&
      decide (Fecha.le u.fecha t.fecha)) (fun u => u.flujo_neto)
      (fun a s => rfl) (fun a s => rfl)
      (flujoDiarioBase (limpiar_datos df0).1) []).symm
  refine ⟨?_, h2, ?_⟩
  · rw [show (calcular_kpis (limpiar_datos df0).1).flujo_diario =
        flujoDiario (limpiar_datos df0).1 from rfl, netosFlujo_base,
      List.filter_true,
      List.filter_congr (fun r hr => claveFlujo_pred r (hcl r hr) c)]
    rfl
  · intro t ht hlast
    rw [h2 t ht]
    have heq : (calcular_kpis (limpiar_datos df0).1).flujo_diario.filter
        (fun u => decide (u.moneda = t.moneda) &&
          decide (Fecha.le u.fecha t.fecha)) =
        (calcular_kpis (limpiar_datos df0).1).flujo_diario.filter
        (fun u => decide (u.moneda = t.moneda)) := by
      apply List.filter_congr
      intro u hu
      by_cases hum : u.moneda = t.moneda
      · rw [decide_eq_true hum, decide_eq_true (hlast u hu hum),
          Bool.and_true]
      · rw [decide_eq_false hum, Bool.false_and]
    rw [heq]
    rfl

/-- The string `"DP"` as code points, a product name for the examples. -/
def strDP : Str := [68, 80]

/-- The string `"ON"` as code points. -/
def strON : Str := [79, 78]

/-- The three-transaction end-to-end example of the specification. -/
def ej2movs : List Mov :=
  [{ id_movimiento := 1, fecha := some ⟨2024, 1, 2⟩, producto_id := 1,
     tipo_operacion := some strIngreso, monto := some (some 100),
     moneda := some strPEN, contraparte := some strBCP,
     descripcion := none },
   { id_movimiento := 2, fecha := some ⟨2024, 1, 2⟩, producto_id := 1,
     tipo_operacion := some strEgreso, monto := some (some 40),
     moneda := some strPEN, contraparte := some strBCP,
     descripcion := none },
   { id_movimiento := 3, fecha := some ⟨2024, 1, 3⟩, producto_id := 2,
     tipo_operacion := some strIngreso, monto := some (some 50),
     moneda := some strUSD, contraparte := some strBCP,
     descripcion := none }]

/-- Product table for the examples. -/
def ej2prods : List Producto :=
  [{ producto_id := 1, nombre_producto := strDP },
   { producto_id := 2, nombre_producto := strON }]

/-- The joined example table. -/
def ej2df : List Row := cargar_datos ej2movs ej2prods

/-- Witness for C2 at the specification's three-transaction example. -/
theorem flujo_diario_cumsum_witness :
    netosFlujo strPEN (calcular_kpis (limpiar_datos ej2df).1).flujo_diario =
        netosTotales strPEN (limpiar_datos ej2df).1 ∧
    (∀ t ∈ (calcular_kpis (limpiar_datos ej2df).1).flujo_diario,
      t.saldo_acumulado =
        (((calcular_kpis (limpiar_datos ej2df).1).flujo_diario.filter
          (fun u => decide (u.moneda = t.moneda) &&
            decide (Fecha.le u.fecha t.fecha))).map
          (fun u => u.flujo_neto)).sum) ∧
    (∀ t ∈ (calcular_kpis (limpiar_datos ej2df).1).flujo_diario,
      (∀ u ∈ (calcular_kpis (limpiar_datos ej2df).1).flujo_diario,
        u.moneda = t.moneda → Fecha.le u.fecha t.fecha) →
      t.saldo_acumulado = netosFlujo t.moneda
        (calcular_kpis (limpiar_datos ej2df).1).flujo_diario) :=
  flujo_diario_cumsum ej2df strPEN

/-- C6.  The liquidity-alerts view consists of exactly the daily-flow
rows with currency `PEN` and strictly negative net flow (three columns
selected), sorted ascending by net flow: it is sorted, every alert row
comes from such a daily-flow row, and every such daily-flow row appears. -/
theorem alertas_caracterizacion (df0 : List Row) :
    List.Sorted rAlerta (calcular_kpis (limpiar_datos df0).1).alertas ∧
    (∀ a ∈ (calcular_kpis (limpiar_datos df0).1).alertas,
      ∃ t ∈ (calcular_kpis (limpiar_datos df0).1).flujo_diario,
        t.moneda = strPEN ∧ t.flujo_neto < 0 ∧
        a = { fecha := t.fecha, flujo_neto := t.flujo_neto,
              saldo_acumulado := t.saldo_acumulado }) ∧
    (∀ t ∈ (calcular_kpis (limpiar_datos df0).1).flujo_diario,
      t.moneda = strPEN → t.flujo_neto < 0 →
      ({ fecha := t.fecha, flujo_neto := t.flujo_neto,
         saldo_acumulado := t.saldo_acumulado } : AlertaRow) ∈
        (calcular_kpis (limpiar_datos df0).1).alertas) := by
  refine ⟨List.sorted_insertionSort rAlerta _, ?_, ?_⟩
  · intro a ha
    have ha2 := (List.perm_insertionSort rAlerta _).mem_iff.1 ha
    obtain ⟨t, ht, rfl⟩ := List.mem_map.1 ha2
    have ht2 := List.mem_filter.1 ht
    have ht3 := List.mem_filter.1 ht2.1
    refine ⟨t, ht3.1, ?_, ?_, rfl⟩
    · exact of_decide_eq_true ht3.2
    · exact of_decide_eq_true ht2.2
  · intro t ht hpen hneg
    apply (List.perm_insertionSort rAlerta _).mem_iff.2
    exact List.mem_map.2 ⟨t, List.mem_filter.2
      ⟨List.mem_filter.2 ⟨ht, decide_eq_true hpen⟩, decide_eq_true hneg⟩,
      rfl⟩

/-- Witness for C6 at the three-transaction example. -/
theorem alertas_caracterizacion_witness :
    List.Sorted rAlerta (calcular_kpis (limpiar_datos ej2df).1).alertas ∧
    (∀ a ∈ (calcular_kpis (limpiar_datos ej2df).1).alertas,
      ∃ t ∈ (calcular_kpis (limpiar_datos ej2df).1).flujo_diario,
        t.moneda = strPEN ∧ t.flujo_neto < 0 ∧
        a = { fecha := t.fecha, flujo_neto := t.flujo_neto,
              saldo_acumulado := t.saldo_acumulado }) ∧
    (∀ t ∈ (calcular_kpis (limpiar_datos ej2df).1).flujo_diario,
      t.moneda = strPEN → t.flujo_neto < 0 →
      ({ fecha := t.fecha, flujo_neto := t.flujo_neto,
         saldo_acumulado := t.saldo_acumulado } : AlertaRow) ∈
        (calcular_kpis (limpiar_datos ej2df).1).alertas) :=
  alertas_caracterizacion ej2df

/-- C5 (amended).  The top-counterparties view has at most 10 rows, one
per counterparty, sorted descending by total transacted volume, where a
counterparty's volume is the sum of the `monto` amounts of its cleaned
rows.  (Ties are *not* broken by input order: `groupby` lists the
counterparty keys in ascending name order before the volume sort, which the
counterexample exhibits.) -/
theorem top_contrapartes_caracteristicas (df0 : List Row) :
    (calcular_kpis (limpiar_datos df0).1).top_contrapartes.length ≤ 10 ∧
    ((calcular_kpis (limpiar_datos df0).1).top_contrapartes.map
      (fun t => t.contraparte)).Nodup ∧
    List.Sorted rContraparte
      (calcular_kpis (limpiar_datos df0).1).top_contrapartes ∧
    (∀ t ∈ (calcular_kpis (limpiar_datos df0).1).top_contrapartes,
      t.volumen_total = (((limpiar_datos df0).1.filter
        (fun r => decide (r.contraparte = some t.contraparte))).map
        montoDe).sum) := by
  refine ⟨?_, ?_, ?_, ?_⟩
  · show ((List.insertionSort rContraparte _).take 10).length ≤ 10
    rw [List.length_take]
    exact min_le_left _ _
  · show (((List.insertionSort rContraparte
      ((groupby strLe claveContraparte (limpiar_datos df0).1).map _)).take
      10).map (fun t => t.contraparte)).Nodup
    rw [List.map_take]
    apply List.Nodup.sublist (List.take_sublist _ _)
    rw [((List.perm_insertionSort rContraparte _).map
      (fun t => t.contraparte)).nodup_iff, List.map_map]
    unfold groupby
    rw [List.map_map]
    show (List.map (fun k => k) (List.insertionSort strLe
      ((limpiar_datos df0).1.filterMap claveContraparte).dedup)).Nodup
    rw [List.map_id']
    exact ((List.perm_insertionSort _ _).nodup_iff).2 (List.nodup_dedup _)
  · exact List.Pairwise.sublist (List.take_sublist _ _)
      (List.sorted_insertionSort rContraparte _)
  · intro t ht
    have ht1 : t ∈ List.insertionSort rContraparte
        ((groupby strLe claveContraparte (limpiar_datos df0).1).map
          (fun kg => ({ contraparte := kg.1
                        n_operaciones := kg.2.length
                        volumen_total := sumMontos kg.2 } : ContraparteRow))) :=
      List.take_subset _ _ ht
    have ht2 := (List.perm_insertionSort rContraparte _).mem_iff.1 ht1
    obtain ⟨kg, hkg, rfl⟩ := List.mem_map.1 ht2
    unfold groupby at hkg
    obtain ⟨k, -, rfl⟩ := List.mem_map.1 hkg
    show sumMontos ((limpiar_datos df0).1.filter
      (fun r => decide (claveContraparte r = some k))) = _
    rfl

/-- Witness for C5 at the three-transaction example. -/
theorem top_contrapartes_caracteristicas_witness :
    (calcular_kpis (limpiar_datos ej2df).1).top_contrapartes.length ≤ 10 ∧
    ((calcular_kpis (limpiar_datos ej2df).1).top_contrapartes.map
      (fun t => t.contraparte)).Nodup ∧
    List.Sorted rContraparte
      (calcular_kpis (limpiar_datos ej2df).1).top_contrapartes ∧
    (∀ t ∈ (calcular_kpis (limpiar_datos ej2df).1).top_contrapartes,
      t.volumen_total = (((limpiar_datos ej2df).1.filter
        (fun r => decide (r.contraparte = some t.contraparte))).map
        montoDe).sum) :=
  top_contrapartes_caracteristicas ej2df

/-- The string `"ZZ"` as code points. -/
def strZZ : Str := [90, 90]

/-- The string `"AA"` as code points. -/
def strAA : Str := [65, 65]

/-- Two same-day, same-amount movements whose counterparties appear in the
input in reverse alphabetical order. -/
def ej5movs : List Mov :=
  [{ id_movimiento := 1, fecha := some ⟨2024, 1, 2⟩, producto_id := 1,
     tipo_operacion := some strIngreso, monto := some (some 10),
     moneda := some strPEN, contraparte := some strZZ,
     descripcion := none },
   { id_movimiento := 2, fecha := some ⟨2024, 1, 2⟩, producto_id := 1,
     tipo_operacion := some strIngreso, monto := some (some 10),
     moneda := some strPEN, contraparte := some strAA,
     descripcion := none }]

/-- The joined tie-breaking example table. -/
def ej5df : List Row := cargar_datos ej5movs ej2prods

/-- C5 (counterexample).  Two counterparties with equal volume: the
cleaned table lists `"ZZ"` before `"AA"` (input order), yet the
top-counterparties view lists `"AA"` first — ties are not broken by input
order (the `groupby` key sort puts the names in ascending order first). -/
theorem top_empate_no_por_orden_de_entrada :
    ((calcular_kpis (limpiar_datos ej5df).1).top_contrapartes.map
      (fun t => t.volumen_total) = [10, 10]) ∧
    ((limpiar_datos ej5df).1.map (fun r => r.contraparte) =
      [some strZZ, some strAA]) ∧
    ((calcular_kpis (limpiar_datos ej5df).1).top_contrapartes.map
      (fun t => t.contraparte) ≠ [strZZ, strAA]) := by
  decide

/-- Forgetting the `mes` column of a row (for stating that nothing else of
the caller's frame is modified). -/
def sinMes (r : Row) : Row := { r with mes := none }

/-- C4 (amended).  The aggregation `calcular_kpis` is a function of its input alone,
but it is not free of side effects on the caller: it assigns the derived
`mes` column into the caller's table.  That is its only effect — with the
`mes` column ignored the caller's table is unchanged, no rows are added or
removed, and repeating the call leaves the mutated table fixed. -/
theorem calcular_kpis_solo_agrega_mes (df : List Row) :
    (calcular_kpis df).dfDespues.map sinMes = df.map sinMes ∧
    (calcular_kpis df).dfDespues.length = df.length ∧
    (calcular_kpis (calcular_kpis df).dfDespues).dfDespues =
      (calcular_kpis df).dfDespues := by
  refine ⟨?_, ?_, ?_⟩
  · show (df.map conMes).map sinMes = df.map sinMes
    rw [List.map_map]
    exact List.map_congr_left (fun r _ => rfl)
  · show (df.map conMes).length = df.length
    exact List.length_map df conMes
  · show (df.map conMes).map conMes = df.map conMes
    rw [List.map_map]
    exact List.map_congr_left (fun r _ => rfl)

/-- C4 (counterexample).  On the cleaned three-transaction example the
caller's table after `calcular_kpis` differs from the table passed in: the
`mes` column has been added in place, so `calcular_kpis` is not
side-effect-free on its input. -/
theorem calcular_kpis_muta_df :
    (calcular_kpis (limpiar_datos ej2df).1).dfDespues ≠
      (limpiar_datos ej2df).1 := by
  decide

namespace Generador

/-- Days as integer day numbers; `esHabil` models `d.weekday() < 5`:
consecutive day numbers cycle through the week, residues `5` and `6`
(mod 7) being the weekend. -/
def esHabil (d : Int) : Bool := decide (d % 7 < 5)

/-- The inclusive day window `FECHA_INICIO .. FECHA_FIN`; empty when the
range is inverted. -/
def rangoDias (inicio fin : Int) : List Int :=
  (List.range (fin + 1 - inicio).toNat).map (fun i => inicio + i)

/-- Business days `fechas_habiles`: the days of the configured window. -/
def fechasHabiles (inicio fin : Int) : List Int :=
  (rangoDias inicio fin).filter esHabil

/-- The failures the generator can raise: `secuenciaVacia` models
`IndexError: Cannot choose from an empty sequence` from `random.choice`;
`claveFecha` models `KeyError: 'fecha'` from `sort_values("fecha")` on the
empty, column-less frame `pd.DataFrame([])`. -/
inductive ErrorGen where
  | secuenciaVacia
  | claveFecha
deriving DecidableEq, Repr

/-- Model of `random.choice`: fails on an empty sequence, otherwise picks an element
(`k` is the PRNG draw). -/
def choice {α : Type} (l : List α) (k : Nat) : Except ErrorGen α :=
  match l with
  | [] => .error .secuenciaVacia
  | a :: t =>
    .ok ((a :: t).get ⟨k % (a :: t).length, Nat.mod_lt _ (Nat.succ_pos _)⟩)

/-- The `PRODUCTOS` catalogue of the generator (names as code points:
`"Depósito a Plazo"`, `"Overnight"`, `"Cuenta Corriente"`, `"Repo"`,
`"Línea de Crédito"`). -/
def PRODUCTOS : List Producto :=
  [{ producto_id := 1, nombre_producto :=
      [68, 101, 112, 243, 115, 105, 116, 111, 32, 97, 32,
       80, 108, 97, 122, 111] },
   { producto_id := 2, nombre_producto :=
      [79, 118, 101, 114, 110, 105, 103, 104, 116] },
   { producto_id := 3, nombre_producto :=
      [67, 117, 101, 110, 116, 97, 32, 67, 111, 114, 114, 105,
       101, 110, 116, 101] },
   { producto_id := 4, nombre_producto := [82, 101, 112, 111] },
   { producto_id := 5, nombre_producto :=
      [76, 237, 110, 101, 97, 32, 100, 101, 32, 67, 114, 233,
       100, 105, 116, 111] }]

/-- The catalogue `MONEDAS = ["PEN", "USD"]`. -/
def MONEDAS : List Str := [strPEN, strUSD]

/-- The catalogue `TIPOS_OP = ["ingreso", "egreso"]`. -/
def TIPOS_OP : List Str := [strIngreso, strEgreso]

/-- The fixed counterparty name list (`"BCP"`, `"BBVA"`, `"Interbank"`,
`"Scotiabank"`, `"Citibank"`, `"BCRP"`, `"Cliente A"`, `"Cliente B"`,
`"Cliente C"`). -/
def CONTRAPARTES : List Str :=
  [[66, 67, 80],
   [66, 66, 86, 65],
   [73, 110, 116, 101, 114, 98, 97, 110, 107],
   [83, 99, 111, 116, 105, 97, 98, 97, 110, 107],
   [67, 105, 116, 105, 98, 97, 110, 107],
   [66, 67, 82, 80],
   [67, 108, 105, 101, 110, 116, 101, 32, 65],
   [67, 108, 105, 101, 110, 116, 101, 32, 66],
   [67, 108, 105, 101, 110, 116, 101, 32, 67]]

/-- Model of `random.choices(MONEDAS, weights=[0.6, 0.4])`: a 60/40 draw
(3 of 5
residues give `PEN`); always succeeds, the name lists being constant and
non-empty. -/
def monedaAleatoria (k : Nat) : Str := if k % 5 < 3 then strPEN else strUSD

/-- Model of `round(random.uniform(lo, hi), 2)` per product: a value within
the
product-specific range (wider for Overnight and Repo), scaled to integer
units; `u` is the PRNG draw. -/
def montoPara (pid : Int) (u : Nat) : Int :=
  if pid = 2 then 500000 + Int.ofNat (u % 4500001)
  else if pid = 4 then 200000 + Int.ofNat (u % 1800001)
  else if pid = 1 then 50000 + Int.ofNat (u % 950001)
  else 5000 + Int.ofNat (u % 295001)

/-- One generated movement record. -/
structure Reg where
  id_movimiento : Int
  fecha : Int
  producto_id : Int
  tipo_operacion : Str
  monto : Int
  moneda : Str
  contraparte : Str
  descripcion : Str
deriving DecidableEq, Repr

/-- The PRNG draws feeding one run, one stream per call site. -/
structure Streams where
  sFecha : Nat → Nat
  sProd : Nat → Nat
  sTipo : Nat → Nat
  sMoneda : Nat → Nat
  sMonto : Nat → Nat
  sContra : Nat → Nat

/-- The body of the generator loop for record `i`: sample a business day, a
product, an operation type, a currency, an amount and a counterparty; the
first failing `random.choice` aborts the whole run. -/
def genReg (fechas : List Int) (productos : List Producto) (st : Streams)
    (i : Nat) : Except ErrorGen Reg := do
  let f ← choice fechas (st.sFecha i)
  let p ← choice (productos.map (fun x => x.producto_id)) (st.sProd i)
  let tp ← choice TIPOS_OP (st.sTipo i)
  let ct ← choice CONTRAPARTES (st.sContra i)
  pure { id_movimiento := Int.ofNat i
         fecha := f
         producto_id := p
         tipo_operacion := tp
         monto := montoPara p (st.sMonto i)
         moneda := monedaAleatoria (st.sMoneda i)
         contraparte := ct
         descripcion :=
           ((productos.find? (fun x => x.producto_id == p)).map
             (fun x => x.nombre_producto)).getD [] ++ [32, 45, 32] ++ ct }

/-- The `for i in range(1, N_REGISTROS + 1)` accumulation: build the
records in order, aborting at the first raised error (before any output is
written). -/
def mapExcept {α β : Type} (f : α → Except ErrorGen β) :
    List α → Except ErrorGen (List β)
  | [] => .ok []
  | a :: t => do
    let b ← f a
    let bs ← mapExcept f t
    pure (b :: bs)

/-- Model of `pd.DataFrame(registros).sort_values("fecha")`: when the
record list is empty the frame `pd.DataFrame([])` has no columns at all,
so `sort_values("fecha")` raises `KeyError: 'fecha'`; otherwise the rows
are sorted by date. -/
def sortPorFecha (regs : List Reg) : Except ErrorGen (List Reg) :=
  match regs with
  | [] => .error .claveFecha
  | a :: t => .ok (List.insertionSort (fun a b => a.fecha ≤ b.fecha) (a :: t))

/-- The whole generator: `n` records (ids `1..n`), sorted by date, plus the
product lookup table; configuration comes first, output files are written
only on success. -/
def generar (inicio fin : Int) (productos : List Producto) (n : Nat)
    (st : Streams) : Except ErrorGen (List Reg × List Producto) := do
  let regs ← mapExcept
    (fun i => genReg (fechasHabiles inicio fin) productos st (i + 1))
    (List.range n)
  let ordenados ← sortPorFecha regs
  pure (ordenados, productos)

lemma choice_ok {α : Type} (l : List α) (k : Nat) (h : l ≠ []) :
    ∃ a, choice l k = .ok a := by
  cases l with
  | nil => exact absurd rfl h
  | cons a t => exact ⟨_, rfl⟩

lemma mapExcept_ok {α β : Type} (f : α → Except ErrorGen β) :
    ∀ xs : List α, (∀ x ∈ xs, ∃ r, f x = .ok r) →
      ∃ l, mapExcept f xs = .ok l ∧ l.length = xs.length := by
  intro xs
  induction xs with
  | nil => intro _; exact ⟨[], rfl, rfl⟩
  | cons a t ih =>
    intro h
    obtain ⟨r, hr⟩ := h a (List.mem_cons_self _ _)
    obtain ⟨l, hl, hlen⟩ := ih (fun x hx => h x (List.mem_cons_of_mem _ hx))
    refine ⟨r :: l, ?_, by simp [hlen]⟩
    simp only [mapExcept]
    rw [hr, hl]
    rfl

lemma genReg_ok (fechas : List Int) (productos : List Producto)
    (st : Streams) (i : Nat) (hf : fechas ≠ []) (hp : productos ≠ []) :
    ∃ r, genReg fechas productos st i = .ok r := by
  obtain ⟨a, ha⟩ := choice_ok fechas (st.sFecha i) hf
  obtain ⟨p, hpk⟩ := choice_ok (productos.map (fun x => x.producto_id))
    (st.sProd i) (by simpa using hp)
  obtain ⟨tp, htp⟩ := choice_ok TIPOS_OP (st.sTipo i) (by decide)
  obtain ⟨ct, hct⟩ := choice_ok CONTRAPARTES (st.sContra i) (by decide)
  simp only [genReg]
  rw [ha, hpk, htp, hct]
  exact ⟨_, rfl⟩

/-- C9 (amended).  The generator fails, before producing any output,
exactly when: the requested record count is zero (the loop then builds no
records and `sort_values("fecha")` raises `KeyError` on the column-less
empty frame), or the record loop runs and either the catalogue is empty or
the configured window contains no business day (`random.choice` raises the
empty-sequence `IndexError`) — the latter covers inverted ranges but also
non-inverted weekend-only ranges.  With a positive count, a non-empty
catalogue and at least one business day it succeeds and produces exactly
`n` records, never a silently empty set. -/
theorem generador_condiciones_de_error (inicio fin : Int)
    (productos : List Producto) (n : Nat) (st : Streams) :
    (productos ≠ [] → fechasHabiles inicio fin ≠ [] → 0 < n →
      ∃ regs, generar inicio fin productos n st = .ok (regs, productos) ∧
        regs.length = n) ∧
    (0 < n → fechasHabiles inicio fin = [] ∨ productos = [] →
      generar inicio fin productos n st = .error .secuenciaVacia) ∧
    (n = 0 → generar inicio fin productos n st = .error .claveFecha) := by
  refine ⟨?_, ?_, ?_⟩
  · intro hp hf hn
    obtain ⟨l, hl, hlen⟩ := mapExcept_ok
      (fun i => genReg (fechasHabiles inicio fin) productos st (i + 1))
      (List.range n)
      (fun i _ => genReg_ok _ _ st (i + 1) hf hp)
    have hlne : l ≠ [] := by
      intro hnil
      rw [hnil] at hlen
      rw [List.length_range] at hlen
      simp at hlen
      omega
    refine ⟨List.insertionSort (fun a b => a.fecha ≤ b.fecha) l, ?_, ?_⟩
    · simp only [generar]
      rw [hl]
      cases l with
      | nil => exact absurd rfl hlne
      | cons a t => rfl
    · rw [(List.perm_insertionSort _ l).length_eq, hlen, List.length_range]
  · intro hn hcase
    obtain ⟨m, rfl⟩ : ∃ m, n = m + 1 := ⟨n - 1, by omega⟩
    have hfail : genReg (fechasHabiles inicio fin) productos st (0 + 1) =
        .error .secuenciaVacia := by
      rcases hcase with hf | hp
      · simp only [genReg]
        rw [hf]
        rfl
      · subst hp
        cases hfe : fechasHabiles inicio fin with
        | nil =>
          simp only [genReg]
          rfl
        | cons a t =>
          simp only [genReg]
          rfl
    simp only [generar, List.range_succ_eq_map, mapExcept]
    rw [hfail]
    rfl
  · intro hn
    subst hn
    rfl

/-- The all-zeros PRNG streams, a concrete run. -/
def stCero : Streams :=
  { sFecha := fun _ => 0, sProd := fun _ => 0, sTipo := fun _ => 0,
    sMoneda := fun _ => 0, sMonto := fun _ => 0, sContra := fun _ => 0 }

/-- C9 (counterexample).  Day numbers 5 and 6 form a valid, non-inverted
two-day window (a weekend) and the catalogue is the full source catalogue,
yet the generator with the source's `N_REGISTROS = 500` raises the
empty-sequence error: configuration misuse as the claim defines it (empty
catalogue or start after end) is not the only error condition. -/
theorem generador_error_sin_dias_habiles :
    (5 : Int) ≤ 6 ∧ PRODUCTOS ≠ [] ∧
      generar 5 6 PRODUCTOS 500 stCero = .error .secuenciaVacia :=
  ⟨by decide, by decide, rfl⟩

/-- Witness for C9: a window with business days and the full catalogue
yield a successful run with exactly as many records as requested. -/
theorem generador_condiciones_de_error_witness :
    ∃ regs, generar 0 6 PRODUCTOS 3 stCero = .ok (regs, PRODUCTOS) ∧
      regs.length = 3 :=
  (generador_condiciones_de_error 0 6 PRODUCTOS 3 stCero).1
    (by decide) (by decide) (by decide)

end Generador

/-- One sheet of the exported workbook: its name and how many data rows it
holds. -/
structure Hoja where
  nombre : String
  filas : Nat
deriving DecidableEq, Repr

/-- Export step `exportar_excel`: write the six sheets in fixed order; when the alerts
view is empty the alerts sheet is still written, with the single
informational row `"Sin alertas en el período"`.  (The full-data sheet
drops the internal `monto_neto`/`mes` columns, which leaves its row count
unchanged.)  Arguments in source order. -/
def exportar_excel (df_raw : List Row) (fl : List FlujoRow)
    (pp : List ProductoRow) (tc : List ContraparteRow) (al : List AlertaRow)
    (rm : List MensualRow) : List Hoja :=
  [{ nombre := "Flujo Diario", filas := fl.length },
   { nombre := "Resumen Mensual", filas := rm.length },
   { nombre := "Por Producto", filas := pp.length },
   { nombre := "Top Contrapartes", filas := tc.length },
   if al.length > 0 then
     { nombre := "Alertas Liquidez", filas := al.length }
   else
     { nombre := "Alertas Liquidez", filas := 1 },
   { nombre := "Data Completa", filas := df_raw.length }]

/-- C10.  Every run exports exactly six sheets, in the fixed order
Daily Flow, Monthly Summary, By Product, Top Counterparties, Liquidity
Alerts, Full Data; when the alerts view is empty the alerts sheet is still
present and holds exactly one (informational) row. -/
theorem exportar_seis_hojas (df_raw : List Row) (fl : List FlujoRow)
    (pp : List ProductoRow) (tc : List ContraparteRow)
    (al : List AlertaRow) (rm : List MensualRow) :
    (exportar_excel df_raw fl pp tc al rm).map (fun h => h.nombre) =
      ["Flujo Diario", "Resumen Mensual", "Por Producto",
       "Top Contrapartes", "Alertas Liquidez", "Data Completa"] ∧
    (al = [] →
      (exportar_excel df_raw fl pp tc al rm).map (fun h => h.filas) =
        [fl.length, rm.length, pp.length, tc.length, 1,
         df_raw.length]) := by
  constructor
  · by_cases h : al.length > 0 <;> simp [exportar_excel, h]
  · intro h
    subst h
    rfl

/-- Witness for C10: the empty run still produces the six named sheets,
the alerts sheet carrying its one informational row. -/
theorem exportar_seis_hojas_witness :
    ((exportar_excel [] [] [] [] [] []).map (fun h => h.nombre) =
      ["Flujo Diario", "Resumen Mensual", "Por Producto",
       "Top Contrapartes", "Alertas Liquidez", "Data Completa"]) ∧
    ((exportar_excel [] [] [] [] [] []).map (fun h => h.filas) =
      [0, 0, 0, 0, 1, 0]) :=
  ⟨(exportar_seis_hojas [] [] [] [] [] []).1,
   (exportar_seis_hojas [] [] [] [] [] []).2 rfl⟩

/-- The string `"ajuste"` as code points: an operation type outside the two
known ones. -/
def strAjuste : Str := [97, 106, 117, 115, 116, 101]

/-- A joined row with valid critical cells but an unknown operation
type. -/
def ejRowAjuste : Row :=
  { id_movimiento := 7, fecha := some ⟨2024, 3, 4⟩, producto_id := 1,
    tipo_operacion := some strAjuste, monto := some (some 5),
    moneda := some strPEN, contraparte := some strBCP,
    descripcion := none, nombre_producto := none,
    monto_neto := none, mes := none }

/-- Witness for C3: the `"ajuste"` row is kept by cleaning with
`monto_neto = -5`, and removing it changes no income or expense total. -/
theorem tipo_desconocido_tolerado_witness :
    ∃ r' ∈ (limpiar_datos [ejRowAjuste]).1,
      r'.id_movimiento = ejRowAjuste.id_movimiento ∧
      r'.tipo_operacion = some (normLower strAjuste) ∧
      r'.monto_neto = some (-(5 : ℤ)) ∧
      ∀ c' : Str,
        ingresosTotales c' (limpiar_datos [ejRowAjuste]).1 =
          ingresosTotales c' ((limpiar_datos [ejRowAjuste]).1.filter
            (fun t => decide
              (t.id_movimiento ≠ ejRowAjuste.id_movimiento))) ∧
        egresosTotales c' (limpiar_datos [ejRowAjuste]).1 =
          egresosTotales c' ((limpiar_datos [ejRowAjuste]).1.filter
            (fun t => decide
              (t.id_movimiento ≠ ejRowAjuste.id_movimiento))) :=
  tipo_desconocido_tolerado [ejRowAjuste] ejRowAjuste strAjuste 5
    ⟨2024, 3, 4⟩ strPEN (by decide) (by decide) (by decide) (by decide)
    (by decide) (by decide) (by decide)

end Tesoreria
